import Mathlib

/-!
Shallow embedding of the PolymarketBTC15mAssistant decision engine
(src/engines/scalpStrategy.js, src/engines/paperTrader.js, src/config.js and
the orchestrator) over exact rational arithmetic.  JavaScript numbers are
modelled as `ℚ`, `null` (and, where noted, `undefined`) as `Option`, and JS
object records as structures.  Reason strings produced by template literals
are modelled by an inductive type carrying the interpolated values, together
with a `render` function producing the literal string.
-/

namespace PolyBot

/-- JS coercion applied when a possibly-`null` number meets `<` / `>`:
`null` coerces to `0`.  (`undefined` comparisons, which are always false,
are modelled separately at their use sites.) -/
def jsNum (x : Option ℚ) : ℚ := x.getD 0

/-- JS `x || d` on a number that is present but possibly `0` (falsy). -/
def orQ (x d : ℚ) : ℚ := if x = 0 then d else x

/-- JS `x || d` on a nonnegative-integer-valued field. -/
def orNat (x d : ℕ) : ℕ := if x = 0 then d else x

/-- JS `x || d` on a possibly-`null`/empty string. -/
def orStr (x : Option String) (d : String) : String :=
  match x with
  | some s => if s = "" then d else s
  | none => d

/-- JS `x || null` on a possibly-`null` number: `0` is falsy and becomes `null`. -/
def numOrNull (x : Option ℚ) : Option ℚ := if x = some 0 then none else x

/-- JS `x || null` on a possibly-`null` millisecond timestamp. -/
def msOrNull (x : Option ℤ) : Option ℤ := if x = some 0 then none else x

/-- The price normalisation `price > 1.05 ? price / 100 : price` used by
`checkExitConditions`, `closePosition` and `getUnrealizedPnL`
(src/engines/paperTrader.js lines 143, 262, 272). -/
def normCents (p : ℚ) : ℚ := if p > 21/20 then p / 100 else p

/-- `[...rs, x].slice(-10)`: append and keep the last ten entries. -/
def pushRing (rs : List String) (x : String) : List String :=
  let l := rs ++ [x]
  l.drop (l.length - 10)

/-- `Number#toFixed(0)` on an exact rational. -/
def toFixed0 (q : ℚ) : String := toString (round q)

/-- `Number#toFixed(1)` on an exact rational. -/
def toFixed1 (q : ℚ) : String :=
  let n : ℤ := round (q * 10)
  let sign := if n < 0 then "-" else ""
  let m := n.natAbs
  sign ++ toString (m / 10) ++ "." ++ toString (m % 10)

/-- `Number#toFixed(2)` on an exact rational. -/
def toFixed2 (q : ℚ) : String :=
  let n : ℤ := round (q * 100)
  let sign := if n < 0 then "-" else ""
  let m := n.natAbs
  sign ++ toString (m / 100) ++ "." ++
    (if m % 100 < 10 then "0" else "") ++ toString (m % 100)

/-! ## Data model of the strategy evaluator (src/engines/scalpStrategy.js) -/

/-- One 1-minute candle as consumed by the evaluator. -/
structure Candle where
  openP : ℚ
  high : ℚ
  low : ℚ
  close : ℚ
  volume : ℚ
deriving DecidableEq

/-- The `macd` indicator bundle `{ hist, histPrev, histPrev2, histDelta }`.
The indicator library may leave entries `null` on short histories. -/
structure Macd where
  hist : Option ℚ
  histPrev : Option ℚ
  histPrev2 : Option ℚ
  histDelta : Option ℚ
deriving DecidableEq

/-- The `heikinAshi` bundle `{ color, count }` from `countConsecutive`. -/
structure HeikinAshi where
  color : String
  count : ℕ
deriving DecidableEq

/-- The `indicators` object passed to `evaluateScalpDetails`.  `rsi` and
`vwap` are modelled as plain numbers: whenever the `ema21`/`macd` data gate
passes (21+ closes) those indicators are formed as well. -/
structure Indicators where
  ema21 : Option ℚ
  ema9 : Option ℚ
  rsi : ℚ
  macd : Option Macd
  heikinAshi : HeikinAshi
  vwap : ℚ
  candles : List Candle
deriving DecidableEq

/-- The `marketOdds` object `{ up, down }`; each side may be `null`. -/
structure MarketOdds where
  up : Option ℚ
  down : Option ℚ
deriving DecidableEq

/-- The context destructured by `evaluateScalpDetails`. -/
structure ScalpContext where
  trend : String
  timeLeftMin : ℚ
  spotPrice : Option ℚ
  strikePrice : Option ℚ
  marketOdds : Option MarketOdds
  indicators : Option Indicators
deriving DecidableEq

inductive Action where
  | ENTER
  | NO_TRADE
deriving DecidableEq

/-- The reason strings of the evaluator, one constructor per template
literal, carrying the interpolated values. -/
inductive Reason where
  | no_setup
  | missing_data
  | less_than_1m_left
  | no_price_data_mom
  | time_too_short_for_mom
  | insufficient_history
  | oddsTooHighUp (odds : ℚ)
  | oddsTooHighDown (odds : ℚ)
  | momUp (rsi : ℚ) (ha : ℕ) (diff : ℚ)
  | momDown (rsi : ℚ) (ha : ℕ) (diff : ℚ)
  | noMomSetup (diff rsi : ℚ) (ha : ℕ) (color : String)
  | no_price_data_late
  | insufficient_history_vol
  | highVolatility (avgVol : ℚ)
  | lateUp (diff avgVol : ℚ)
  | lateDown (diff avgVol : ℚ)
  | no_late_setup
  | no_price_sniper
  | haCountLow (c : ℕ)
  | sniperUp (ha : ℕ) (rsi : ℚ)
  | sniperDown (ha : ℕ) (rsi : ℚ)
  | no_sniper_setup
deriving DecidableEq

/-- The literal string each `Reason` stands for. -/
def Reason.render : Reason → String
  | .no_setup => "no_setup"
  | .missing_data => "missing_data"
  | .less_than_1m_left => "less_than_1m_left"
  | .no_price_data_mom => "no_price_data"
  | .time_too_short_for_mom => "time_too_short_for_mom"
  | .insufficient_history => "insufficient_history"
  | .oddsTooHighUp q => "odds_too_high_up_" ++ toFixed2 q
  | .oddsTooHighDown q => "odds_too_high_down_" ++ toFixed2 q
  | .momUp r h d => "mom_up_rsi" ++ toFixed0 r ++ "_ha" ++ toString h ++ "_diff$" ++ toFixed0 d
  | .momDown r h d => "mom_down_rsi" ++ toFixed0 r ++ "_ha" ++ toString h ++ "_diff$" ++ toFixed0 d
  | .noMomSetup d r h c =>
      "no_mom_setup_diff" ++ toFixed0 d ++ "_rsi" ++ toFixed0 r ++ "_ha" ++ toString h ++ "_" ++ c
  | .no_price_data_late => "no_price_data"
  | .insufficient_history_vol => "insufficient_history_vol"
  | .highVolatility v => "high_volatility_$" ++ toFixed0 v
  | .lateUp d v => "late_up_diff$" ++ toFixed0 d ++ "_vol$" ++ toFixed0 v
  | .lateDown d v => "late_down_diff$" ++ toFixed0 d ++ "_vol$" ++ toFixed0 v
  | .no_late_setup => "no_late_setup"
  | .no_price_sniper => "no_price"
  | .haCountLow c => "ha_count_low_" ++ toString c
  | .sniperUp h r => "sniper_up_ha" ++ toString h ++ "_rsi" ++ toFixed0 r
  | .sniperDown h r => "sniper_down_ha" ++ toString h ++ "_rsi" ++ toFixed0 r
  | .no_sniper_setup => "no_sniper_setup"

/-- A recommendation record.  `confidence` is `Option String` because some
`NO_TRADE` returns omit the key (JS `undefined`). -/
structure Rec where
  action : Action
  strategy : Option String
  side : Option String
  confidence : Option String
  reason : Reason
deriving DecidableEq

/-- Strategy configuration (`CONFIG.strategy`): `momentum.minOddsEdge`
and `lateWindow.minOdds`.  src/config.js contains two versions of the
`CONFIG` object (0.15 / 0.85 and 0.10 / 0.90); theorems are stated for an
arbitrary configuration wherever the value matters. -/
structure StratCfg where
  minOddsEdge : ℚ
  lateMinOdds : ℚ

/-- First `CONFIG` block of src/config.js. -/
def stratCfg : StratCfg := { minOddsEdge := 15/100, lateMinOdds := 85/100 }

/-- `NO_TRADE` with the base shape of `result` in `evaluateScalpDetails`. -/
def noTradeBase (r : Reason) : Rec :=
  { action := .NO_TRADE, strategy := none, side := none, confidence := some "NONE", reason := r }

/-- `{ action: "NO_TRADE", strategy: "MOMENTUM", side: null, reason }`. -/
def noTradeMom (r : Reason) : Rec :=
  { action := .NO_TRADE, strategy := some "MOMENTUM", side := none, confidence := none, reason := r }

def noTradeLate (r : Reason) : Rec :=
  { action := .NO_TRADE, strategy := some "LATE_WINDOW", side := none, confidence := none, reason := r }

def noTradeSniper (r : Reason) : Rec :=
  { action := .NO_TRADE, strategy := some "SNIPER", side := none, confidence := none, reason := r }

/-- src/engines/scalpStrategy.js `checkMomentum` (lines 67-165). -/
def checkMomentum (S : StratCfg) (spotPrice strikePrice : Option ℚ) (timeLeftMin : ℚ)
    (ema21 : Option ℚ) (ha : HeikinAshi) (rsi : ℚ) (mac : Macd)
    (oddsUp oddsDown : Option ℚ) (candles : List Candle) : Rec :=
  match spotPrice, strikePrice with
  | some spot, some strike =>
    if timeLeftMin < 3/2 then noTradeMom .time_too_short_for_mom
    else
      let diff := spot - strike
      if candles.length < 2 then noTradeMom .insufficient_history
      else
        let last2 := candles.drop (candles.length - 2)
        let macdGrowingUp :=
          jsNum mac.hist > 0 ∧ mac.histPrev ≠ none ∧ jsNum mac.histPrev > 0 ∧
            jsNum mac.hist > jsNum mac.histPrev
        let macdGrowingDown :=
          jsNum mac.hist < 0 ∧ mac.histPrev ≠ none ∧ jsNum mac.histPrev < 0 ∧
            jsNum mac.hist < jsNum mac.histPrev
        let persistenceUp := ∀ c ∈ last2, c.close > strike
        let isUpSetup := diff > 50 ∧ persistenceUp ∧ spot > jsNum ema21 ∧
          ha.color = "green" ∧ ha.count ≥ 2 ∧ rsi ≥ 40 ∧ rsi ≤ 80 ∧ macdGrowingUp
        if isUpSetup then
          if jsNum oddsUp < 85/100 ∧ jsNum oddsUp < 1 - S.minOddsEdge then
            { action := .ENTER, strategy := some "MOMENTUM", side := some "UP",
              confidence := some "HIGH", reason := .momUp rsi ha.count diff }
          else noTradeMom (.oddsTooHighUp (jsNum oddsUp))
        else
          let persistenceDown := ∀ c ∈ last2, c.close < strike
          let isDownSetup := diff < -50 ∧ persistenceDown ∧ spot < jsNum ema21 ∧
            ha.color = "red" ∧ ha.count ≥ 2 ∧ rsi ≥ 20 ∧ rsi ≤ 60 ∧ macdGrowingDown
          if isDownSetup then
            if jsNum oddsDown < 85/100 ∧ jsNum oddsDown < 1 - S.minOddsEdge then
              { action := .ENTER, strategy := some "MOMENTUM", side := some "DOWN",
                confidence := some "HIGH", reason := .momDown rsi ha.count diff }
            else noTradeMom (.oddsTooHighDown (jsNum oddsDown))
          else
            { action := .NO_TRADE, strategy := some "MOMENTUM", side := none,
              confidence := some "NONE", reason := .noMomSetup diff rsi ha.count ha.color }
  | _, _ => noTradeMom .no_price_data_mom

/-- src/engines/scalpStrategy.js `checkLateWindow` (lines 173-227). -/
def checkLateWindow (S : StratCfg) (spotPrice strikePrice : Option ℚ)
    (ha : HeikinAshi) (oddsUp oddsDown : Option ℚ) (candles : List Candle) : Rec :=
  match spotPrice, strikePrice with
  | some spot, some strike =>
    let diff := spot - strike
    if candles.length < 5 then noTradeLate .insufficient_history_vol
    else
      let last5 := candles.drop (candles.length - 5)
      let avgVol := ((last5.map (fun c => c.high - c.low)).sum) / (last5.length : ℚ)
      if avgVol > 80 then noTradeLate (.highVolatility avgVol)
      else
        let isStable := ha.count ≥ 5
        if diff > 300 ∧ isStable ∧ ha.color = "green" ∧ jsNum oddsUp < S.lateMinOdds then
          { action := .ENTER, strategy := some "LATE_WINDOW", side := some "UP",
            confidence := some "VERY_HIGH", reason := .lateUp diff avgVol }
        else if diff < -300 ∧ isStable ∧ ha.color = "red" ∧ jsNum oddsDown < S.lateMinOdds then
          { action := .ENTER, strategy := some "LATE_WINDOW", side := some "DOWN",
            confidence := some "VERY_HIGH", reason := .lateDown diff avgVol }
        else noTradeLate .no_late_setup
  | _, _ => noTradeLate .no_price_data_late

/-- src/engines/scalpStrategy.js `checkTrendSniper` (lines 230-276). -/
def checkTrendSniper (spotPrice strikePrice : Option ℚ) (ha : HeikinAshi) (rsi : ℚ)
    (oddsUp oddsDown : Option ℚ) : Rec :=
  match spotPrice, strikePrice with
  | some spot, some strike =>
    let diff := spot - strike
    if ha.count < 6 then noTradeSniper (.haCountLow ha.count)
    else if diff > 80 ∧ ha.color = "green" ∧ rsi > 60 then
      if jsNum oddsUp < 90/100 then
        { action := .ENTER, strategy := some "SNIPER", side := some "UP",
          confidence := some "MAX", reason := .sniperUp ha.count rsi }
      else noTradeSniper (.oddsTooHighUp (jsNum oddsUp))
    else if diff < -80 ∧ ha.color = "red" ∧ rsi < 40 then
      if jsNum oddsDown < 90/100 then
        { action := .ENTER, strategy := some "SNIPER", side := some "DOWN",
          confidence := some "MAX", reason := .sniperDown ha.count rsi }
      else noTradeSniper (.oddsTooHighDown (jsNum oddsDown))
    else noTradeSniper .no_sniper_setup
  | _, _ => noTradeSniper .no_price_sniper

/-- The time-bucket dispatch of `evaluateScalpDetails` once the data gate
has passed (lines 46-62): Sniper first for `0.5 ≤ t ≤ 2.0`, then Momentum
for `t > 1.5`, Late Window for `1.0 ≤ t ≤ 1.5`, otherwise `NO_TRADE`. -/
def evalBody (S : StratCfg) (t : ℚ) (spot strike : Option ℚ)
    (ind : Indicators) (mac : Macd) (odds : MarketOdds) : Rec :=
  let sniper := checkTrendSniper spot strike ind.heikinAshi ind.rsi odds.up odds.down
  if 1/2 ≤ t ∧ t ≤ 2 ∧ sniper.action = .ENTER then sniper
  else if 3/2 < t then
    checkMomentum S spot strike t ind.ema21 ind.heikinAshi ind.rsi mac odds.up odds.down ind.candles
  else if 1 ≤ t ∧ t ≤ 3/2 then
    checkLateWindow S spot strike ind.heikinAshi odds.up odds.down ind.candles
  else noTradeBase .less_than_1m_left

/-- src/engines/scalpStrategy.js `evaluateScalpDetails` (lines 23-63).
The data gate is JS `!indicators || !indicators.ema21 || !indicators.macd
|| !marketOdds` (`!x` on a number is true for `null` and `0`). -/
def evaluateScalpDetails (S : StratCfg) (ctx : ScalpContext) : Rec :=
  match ctx.indicators, ctx.marketOdds with
  | some ind, some odds =>
    match ind.macd with
    | some mac =>
      if ind.ema21 = none ∨ ind.ema21 = some 0 then noTradeBase .missing_data
      else evalBody S ctx.timeLeftMin ctx.spotPrice ctx.strikePrice ind mac odds
    | none => noTradeBase .missing_data
  | _, _ => noTradeBase .missing_data

/-- The data-gate condition of `evaluateScalpDetails`, as a Boolean. -/
def missingDataB (ctx : ScalpContext) : Bool :=
  match ctx.indicators, ctx.marketOdds with
  | some ind, some _ => ind.ema21 = none || ind.ema21 = some 0 || ind.macd = none
  | _, _ => true

/-! ## Data model of the paper trader (src/engines/paperTrader.js) -/

/-- An open position.  `pid` models JS object identity (the code removes a
closed position with a reference comparison `p !== pos`); all other fields
are the object literal pushed by `handleEntrySignal`. -/
structure Position where
  pid : ℕ
  marketSlug : String
  side : String
  entryPrice : ℚ
  amount : ℚ
  shares : ℚ
  entryTime : ℤ
  hitBreakevenTrigger : Bool
  strategy : String
  strikePrice : Option ℚ
  endDate : Option ℤ
deriving DecidableEq

/-- The persisted trader state.  `position` (singular) is read by the
duplicate-position guard but never written anywhere in the code; it is kept
as an `Option` field that stays `none`. -/
structure PaperState where
  balance : ℚ
  positions : List Position
  dailyLoss : ℚ
  lastStopLossTime : ℤ
  recentResults : List String
  lastDailyReset : ℤ
  lastExitTime : ℤ
  lastEntryTime : ℤ
  consecutiveLosses : ℕ
  position : Option Position := none
deriving DecidableEq

/-- `CONFIG.paper`.  `minEntryPrice`, `maxEntryPrice`, `maxConsecutiveLosses`
and `cooldownMinutes` are read by paperTrader.js but absent from both
`CONFIG` blocks in src/config.js, hence `Option` with `none` = `undefined`
(JS comparisons against `undefined` are false). -/
structure PaperConfig where
  initialBalance : ℚ
  feePct : ℚ
  usePolymarketDynamicFees : Bool
  minBet : ℚ
  maxBet : ℚ
  maxConcurrentPositions : ℕ
  stopLossRoiPct : ℚ
  takeProfitRoiPct : ℚ
  momentumTakeProfitRoiPct : ℚ
  dailyLossLimitPct : ℚ
  useKelly : Bool
  kellyFraction : ℚ
  minKellyBet : ℚ
  maxKellyBet : ℚ
  timeGuardMinutes : ℚ
  resolutionThreshold : ℚ
  entryCooldownSeconds : ℚ
  stopLossGracePeriodSeconds : ℚ
  minEntryPrice : Option ℚ
  maxEntryPrice : Option ℚ
  maxConsecutiveLosses : Option ℕ
  cooldownMinutes : Option ℚ

/-- The first (active) `CONFIG.paper` block of src/config.js. -/
def defaultPaperConfig : PaperConfig :=
  { initialBalance := 100
    feePct := 2
    usePolymarketDynamicFees := true
    minBet := 3
    maxBet := 5
    maxConcurrentPositions := 2
    stopLossRoiPct := 40
    takeProfitRoiPct := 100
    momentumTakeProfitRoiPct := 50
    dailyLossLimitPct := 30
    useKelly := true
    kellyFraction := 1/2
    minKellyBet := 3
    maxKellyBet := 5
    timeGuardMinutes := 2
    resolutionThreshold := 95/100
    entryCooldownSeconds := 45
    stopLossGracePeriodSeconds := 15
    minEntryPrice := none
    maxEntryPrice := none
    maxConsecutiveLosses := none
    cooldownMinutes := none }

/-- The fields of the recommendation object that `handleEntrySignal` and
`checkResolution` consume (the evaluator result as augmented by the
orchestrator before `paper.update`). -/
structure TraderRec where
  strategy : Option String
  probability : Option ℚ
  strikePrice : Option ℚ
  endDate : Option ℤ
deriving DecidableEq

/-- `calculateFee` (paperTrader.js lines 66-73). -/
def calculateFee (cfg : PaperConfig) (amount price : ℚ) : ℚ :=
  if cfg.usePolymarketDynamicFees then amount * (1/4) * (price * (1 - price))^2
  else amount * (cfg.feePct / 100)

/-- The close-reason strings passed to `closePosition`, one constructor per
template literal, with the interpolated values as payload. -/
inductive CloseReason where
  | expiryR (spot strike : ℚ)
  | timeGuardExit (guard : ℚ)
  | stopLossR (roiPct : ℚ)
  | tpMomentum (roiPct : ℚ)
  | tpMeanRev
  | timeStopMeanRev
  | takeProfitLegacy
  | flipClose
deriving DecidableEq

/-- The literal string each `CloseReason` stands for. -/
def CloseReason.render : CloseReason → String
  | .expiryR s k => "EXPIRY (Spot: " ++ toString s ++ ", Strike: " ++ toString k ++ ")"
  | .timeGuardExit g => "TIME_GUARD_EXIT (<" ++ toString g ++ "m)"
  | .stopLossR r => "STOP_LOSS (" ++ toFixed1 r ++ "%)"
  | .tpMomentum r => "TP_MOMENTUM (+" ++ toFixed1 r ++ "%)"
  | .tpMeanRev => "TP_MEAN_REV (Price > 50c)"
  | .timeStopMeanRev => "TIME_STOP_MEAN_REV (<3m)"
  | .takeProfitLegacy => "TAKE_PROFIT_LEGACY"
  | .flipClose => "FLIP_CLOSE"

/-- `reason.includes("STOP_LOSS")`: only the `STOP_LOSS (...)` string
contains that substring among the produced reasons. -/
def CloseReason.isStopLoss : CloseReason → Bool
  | .stopLossR _ => true
  | _ => false

/-- `closePosition` (paperTrader.js lines 269-321).  The fee exemption is
the literal comparison `reason !== "EXPIRY" && reason !== "SETTLE"` on the
rendered string. -/
def closePosition (cfg : PaperConfig) (st : PaperState) (pos : Position)
    (exitPrice : ℚ) (reason : CloseReason) (now : ℤ) : PaperState :=
  let normalizedExit := normCents exitPrice
  let proceeds0 := pos.shares * normalizedExit
  let fee :=
    if reason.render = "EXPIRY" ∨ reason.render = "SETTLE" then 0
    else calculateFee cfg proceeds0 normalizedExit
  let proceeds := proceeds0 - fee
  let pnl := proceeds - pos.amount
  if pnl < 0 then
    { st with
      balance := st.balance + proceeds
      positions := st.positions.filter (fun p => p.pid ≠ pos.pid)
      lastExitTime := now
      dailyLoss := st.dailyLoss + |pnl|
      recentResults := pushRing st.recentResults "LOSS"
      lastStopLossTime := if reason.isStopLoss then now else st.lastStopLossTime
      consecutiveLosses := st.consecutiveLosses + 1 }
  else
    { st with
      balance := st.balance + proceeds
      positions := st.positions.filter (fun p => p.pid ≠ pos.pid)
      lastExitTime := now
      dailyLoss := st.dailyLoss - pnl
      recentResults := pushRing st.recentResults "WIN"
      consecutiveLosses := 0 }

/-- The per-position exit decision taken after the time guard in
`checkExitConditions` (paperTrader.js lines 183-227): hard stop loss with
grace period, then the strategy-specific take profits. -/
def exitAfterTimeGuard (cfg : PaperConfig) (pos : Position) (normPrice roiPct : ℚ)
    (entryAgeSeconds : ℚ) (timeLeftMin : Option ℚ) : Option CloseReason :=
  let gracePeriod := orQ cfg.stopLossGracePeriodSeconds 15
  if roiPct ≤ -cfg.stopLossRoiPct then
    if entryAgeSeconds < gracePeriod then none else some (.stopLossR roiPct)
  else if pos.strategy = "MOMENTUM" then
    if roiPct ≥ orQ cfg.momentumTakeProfitRoiPct 50 then some (.tpMomentum roiPct) else none
  else if pos.strategy = "MEAN_REVERSION" then
    if normPrice ≥ 1/2 then some .tpMeanRev
    else if (match timeLeftMin with | some t => decide (t ≤ 3) | none => false) then
      some .timeStopMeanRev
    else none
  else if pos.strategy = "LATE_WINDOW" then none
  else if roiPct ≥ cfg.takeProfitRoiPct then some .takeProfitLegacy
  else none

/-- The whole per-position exit decision of `checkExitConditions`
(paperTrader.js lines 136-227), given the raw side price. -/
def exitReasonFor (cfg : PaperConfig) (pos : Position) (price : ℚ)
    (timeLeftMin : Option ℚ) (trend : String) (now : ℤ) : Option CloseReason :=
  let normPrice := normCents price
  let roiPct := (normPrice - pos.entryPrice) / pos.entryPrice * 100
  let entryAgeSeconds := ((now - pos.entryTime : ℤ) : ℚ) / 1000
  let isLateWindow := pos.strategy = "LATE_WINDOW"
  let timeGuard := if isLateWindow then 1/2 else orQ cfg.timeGuardMinutes 2
  match timeLeftMin with
  | some t =>
    if t ≤ timeGuard then
      let resThreshold := orQ cfg.resolutionThreshold (95/100)
      let isFavored := normPrice > 1/2
      let isHopeful := normPrice > 1/5 ∧ trend = (if pos.side = "UP" then "RISING" else "FALLING")
      let isNearLoss := normPrice ≤ 1 - resThreshold
      if isFavored ∨ isHopeful ∨ isNearLoss then
        exitAfterTimeGuard cfg pos normPrice roiPct entryAgeSeconds timeLeftMin
      else some (.timeGuardExit timeGuard)
    else exitAfterTimeGuard cfg pos normPrice roiPct entryAgeSeconds timeLeftMin
  | none => exitAfterTimeGuard cfg pos normPrice roiPct entryAgeSeconds timeLeftMin

/-- `checkExitConditions` (paperTrader.js lines 130-228): iterate over a
copy of the position list, close the positions of this market whose exit
decision fires, using the raw side price. -/
def checkExitConditions (cfg : PaperConfig) (st : PaperState) (marketSlug : String)
    (pUp pDown : Option ℚ) (timeLeftMin : Option ℚ) (trend : String) (now : ℤ) : PaperState :=
  st.positions.foldl
    (fun s pos =>
      if pos.marketSlug = marketSlug then
        match (if pos.side = "UP" then pUp else pDown) with
        | some price =>
          match exitReasonFor cfg pos price timeLeftMin trend now with
          | some r => closePosition cfg s pos price r now
          | none => s
        | none => s
      else s)
    st

/-- `checkResolution` (paperTrader.js lines 230-252): settle each expired
position at price `1` (win) or `0` (loss). -/
def checkResolution (cfg : PaperConfig) (st : PaperState)
    (recStrike recSpot : Option ℚ) (timeLeftMin : Option ℚ) (now : ℤ) : PaperState :=
  st.positions.foldl
    (fun s pos =>
      let posExpired : Bool :=
        (match timeLeftMin with | some t => decide (t ≤ 0) | none => false) ||
        (match pos.endDate with | some e => decide (e ≠ 0 ∧ now ≥ e) | none => false)
      let posStrike :=
        match pos.strikePrice with
        | some k => if k = 0 then recStrike else some k
        | none => recStrike
      match posStrike, recSpot with
      | some k, some sp =>
        if posExpired then
          let win := if pos.side = "UP" then k ≤ sp
            else if pos.side = "DOWN" then sp < k else False
          closePosition cfg s pos (if win then 1 else 0) (.expiryR sp k) now
        else s
      | _, _ => s)
    st

/-- `getUnrealizedPnL` for a single position. -/
def posUnrealized (pos : Position) (price : Option ℚ) : ℚ :=
  match price with
  | none => 0
  | some p => pos.shares * normCents p - pos.amount

/-- `getUnrealizedPnL` (paperTrader.js lines 254-267). -/
def getUnrealizedPnL (positions : List Position) (pUp pDown : Option ℚ) : ℚ :=
  (positions.map (fun pos => posUnrealized pos (if pos.side = "UP" then pUp else pDown))).sum

/-- The position-sizing block of `handleEntrySignal` (paperTrader.js lines
394-420): Kelly sizing when enabled and a probability is present, else
fixed sizing by strategy. -/
def entrySizing (cfg : PaperConfig) (st : PaperState) (rec : TraderRec)
    (normalizedPrice : ℚ) : ℚ :=
  match cfg.useKelly, rec.probability with
  | true, some p =>
    let f := orQ cfg.kellyFraction (1/2)
    let kelly := (p - normalizedPrice) / (1 - normalizedPrice)
    max cfg.minKellyBet (min cfg.maxKellyBet (st.balance * f * kelly))
  | _, _ =>
    if rec.strategy = some "LATE_WINDOW" then 5
    else if rec.strategy = some "MOMENTUM" then 4
    else if rec.strategy = some "MEAN_REVERSION" then 3
    else cfg.minBet

/-- The flip-flop block of `handleEntrySignal` (paperTrader.js lines
422-431): when positions exist on this market on the opposite side, close
them all at the entry-side price with reason `FLIP_CLOSE`. -/
def entryFlip (cfg : PaperConfig) (st : PaperState) (side marketSlug : String)
    (ep : ℚ) (now : ℤ) : PaperState :=
  let marketPositions := st.positions.filter (fun p => p.marketSlug = marketSlug)
  match marketPositions with
  | [] => st
  | p0 :: _ =>
    if p0.side ≠ side then
      marketPositions.foldl (fun s pos => closePosition cfg s pos ep .flipClose now) st
    else st

/-- The open block of `handleEntrySignal` (paperTrader.js lines 433-474):
capacity is the TOTAL number of open positions; the balance gate is
`balance >= tradeAmount` (the fee is not part of the gate), and
`tradeAmount + fee` is subtracted. -/
def entryOpen (cfg : PaperConfig) (st1 : PaperState) (rec : TraderRec)
    (side marketSlug : String) (tradeAmount normalizedPrice : ℚ) (now : ℤ) (newPid : ℕ) :
    PaperState :=
  let maxPos := orNat cfg.maxConcurrentPositions 2
  if st1.positions.length < maxPos ∧ st1.balance ≥ tradeAmount then
    let shares := tradeAmount / normalizedPrice
    let fee := calculateFee cfg tradeAmount normalizedPrice
    let totalCost := tradeAmount + fee
    { st1 with
      balance := st1.balance - totalCost
      positions := st1.positions ++
        [{ pid := newPid
           marketSlug := marketSlug
           side := side
           entryPrice := normalizedPrice
           amount := totalCost
           shares := shares
           entryTime := now
           hitBreakevenTrigger := false
           strategy := orStr rec.strategy "UNKNOWN"
           strikePrice := numOrNull rec.strikePrice
           endDate := msOrNull rec.endDate }]
      lastEntryTime := now }
  else st1

/-- `handleEntrySignal` (paperTrader.js lines 323-475).  `newPid` is the
fresh identity of the pushed position object. -/
def handleEntrySignal (cfg : PaperConfig) (st : PaperState) (rec : TraderRec)
    (side marketSlug : String) (priceUp priceDown : Option ℚ) (now : ℤ) (newPid : ℕ) :
    PaperState :=
  match (if side = "UP" then priceUp else priceDown) with
  | none => st
  | some ep =>
    if ep ≤ 0 ∨ ep ≥ 1 then st
    else
      let normalizedPrice := if ep > 1 then ep / 100 else ep
      if (match cfg.minEntryPrice with | some m => decide (normalizedPrice < m) | none => false) ||
         (match cfg.maxEntryPrice with | some m => decide (normalizedPrice > m) | none => false) then st
      else if (match cfg.maxConsecutiveLosses with
               | some m => decide (st.consecutiveLosses ≥ m) | none => false) then st
      else if (match st.position with
               | some p => decide (p.marketSlug = marketSlug) | none => false) then st
      else
        let dailyLossLimit := st.balance * (cfg.dailyLossLimitPct / 100)
        if st.dailyLoss ≥ dailyLossLimit then st
        else if decide (st.lastStopLossTime ≠ 0) &&
            (match cfg.cooldownMinutes with
             | some cd => decide (((now - st.lastStopLossTime : ℤ) : ℚ) / 60000 < cd)
             | none => false) then st
        else if st.lastEntryTime ≠ 0 ∧
            ((now - st.lastEntryTime : ℤ) : ℚ) < orQ cfg.entryCooldownSeconds 15 * 1000 then st
        else
          let tradeAmount := entrySizing cfg st rec normalizedPrice
          let st1 := entryFlip cfg st side marketSlug ep now
          entryOpen cfg st1 rec side marketSlug tradeAmount normalizedPrice now newPid

/-! ## UTC civil-date arithmetic for the daily reset -/

/-- Civil date `(year, month, day)` from a count of days since 1970-01-01
(standard era-based conversion, valid for nonnegative day counts). -/
def civilFromDays (days : ℕ) : ℕ × ℕ × ℕ :=
  let z := days + 719468
  let era := z / 146097
  let doe := z % 146097
  let yoe := (doe - doe / 1460 + doe / 36524 - doe / 146096) / 365
  let y := yoe + era * 400
  let doy := doe - (365 * yoe + yoe / 4 - yoe / 100)
  let mp := (5 * doy + 2) / 153
  let d := doy - (153 * mp + 2) / 5 + 1
  let m := if mp < 10 then mp + 3 else mp - 9
  (if mp ≥ 10 then y + 1 else y, m, d)

/-- The UTC calendar date of a millisecond timestamp (nonnegative
timestamps, i.e. dates from 1970 on, as produced by `Date.now()`). -/
def utcCivilDate (ms : ℤ) : ℕ × ℕ × ℕ := civilFromDays (ms.toNat / 86400000)

/-- JS `Date#getUTCDate()`: the day-of-month (1..31) of the UTC date. -/
def utcDayOfMonth (ms : ℤ) : ℕ := (utcCivilDate ms).2.2

/-- `resetDailyLossIfNeeded` (paperTrader.js lines 118-128): the comparison
is `last.getUTCDate() !== now.getUTCDate()`, i.e. day-of-month only. -/
def resetDailyLossIfNeeded (st : PaperState) (now : ℤ) : PaperState :=
  if utcDayOfMonth st.lastDailyReset ≠ utcDayOfMonth now then
    { st with dailyLoss := 0, lastDailyReset := now }
  else st

/-! ## Strike parsing and latching (orchestrator, `parsePriceToBeat`,
`extractNumericFromMarket`, `priceToBeatFromPolymarketMarket`) -/

/-- A scalar market-metadata value: a JSON number, a string, or anything
else (`null`, booleans, ...).  Nested objects of the metadata record are
modelled flattened into the field list. -/
inductive MetaVal where
  | num (q : ℚ)
  | str (s : String)
  | other
deriving DecidableEq

/-- A Polymarket market record as consumed by the strike logic. -/
structure Market where
  question : Option String
  title : Option String
  fields : List (String × MetaVal)
deriving DecidableEq

/-- The value of a digit string. -/
def digitsToNat (ds : List Char) : ℕ := ds.foldl (fun a c => a * 10 + (c.toNat - 48)) 0

/-- Value of a matched number token (digits, commas, optional fraction):
`raw.replace(/,/g, "")` followed by `Number(raw)`. -/
def numTokenToRat (tok : List Char) : ℚ :=
  let t := tok.filter (fun c => c ≠ ',')
  let ip := t.takeWhile Char.isDigit
  let rest := t.drop ip.length
  let fp := match rest with | '.' :: r => r | _ => []
  (digitsToNat ip : ℚ) + (digitsToNat fp : ℚ) / ((10 : ℚ) ^ fp.length)

/-- Match the number regex `[0-9][0-9,]*(?:\.[0-9]+)?` at the head of the
text, returning the matched token. -/
def takeNumToken : List Char → Option (List Char)
  | c :: rest =>
    if c.isDigit then
      let body := rest.takeWhile (fun ch => ch.isDigit || ch = ',')
      let rest2 := rest.drop body.length
      let frac :=
        match rest2 with
        | '.' :: r2 =>
          let ds := r2.takeWhile Char.isDigit
          if ds.isEmpty then [] else '.' :: ds
        | _ => []
      some (c :: body ++ frac)
    else none
  | [] => none

/-- Match a fixed lowercase word case-insensitively at the head of the
text, returning the remainder. -/
def matchCIWord : List Char → List Char → Option (List Char)
  | [], cs => some cs
  | w :: ws, c :: cs => if c.toLower = w then matchCIWord ws cs else none
  | _ :: _, [] => none

/-- Try a pattern at every position, left to right (regex first-match). -/
def scanText (f : List Char → Option (List Char)) : List Char → Option (List Char)
  | [] => none
  | c :: rest =>
    match f (c :: rest) with
    | some v => some v
    | none => scanText f rest

/-- `/price\s*to\s*beat[^\d$]*\$?\s*NUM/i` anchored at the head. -/
def matchP2BAt (cs : List Char) : Option (List Char) := do
  let r1 ← matchCIWord "price".toList cs
  let r2 := r1.dropWhile Char.isWhitespace
  let r3 ← matchCIWord "to".toList r2
  let r4 := r3.dropWhile Char.isWhitespace
  let r5 ← matchCIWord "beat".toList r4
  let r6 := r5.dropWhile (fun c => !c.isDigit && c ≠ '$')
  let r7 := match r6 with | '$' :: r => r | _ => r6
  let r8 := r7.dropWhile Char.isWhitespace
  takeNumToken r8

/-- `/>\s*\$?\s*NUM/` anchored at the head. -/
def matchGtAt : List Char → Option (List Char)
  | '>' :: rest =>
    let r1 := rest.dropWhile Char.isWhitespace
    let r2 := match r1 with | '$' :: r => r | _ => r1
    let r3 := r2.dropWhile Char.isWhitespace
    takeNumToken r3
  | _ => none

/-- `/above\s*\$?\s*NUM/i` anchored at the head. -/
def matchAboveAt (cs : List Char) : Option (List Char) := do
  let r1 ← matchCIWord "above".toList cs
  let r2 := r1.dropWhile Char.isWhitespace
  let r3 := match r2 with | '$' :: r => r | _ => r2
  let r4 := r3.dropWhile Char.isWhitespace
  takeNumToken r4

/-- `parsePriceToBeat` (orchestrator lines 245-266): parse a strike from
the question text, trying the three regexes in order. -/
def parsePriceToBeat (m : Market) : Option ℚ :=
  let text :=
    match m.question with
    | some q => q
    | none => match m.title with | some t => t | none => ""
  if text = "" then none
  else
    match scanText matchP2BAt text.toList with
    | some tok => some (numTokenToRat tok)
    | none =>
      match scanText matchGtAt text.toList with
      | some tok => some (numTokenToRat tok)
      | none => (scanText matchAboveAt text.toList).map numTokenToRat

/-- `Number(v)` on the plain decimal strings occurring in market metadata
(sign, digits, optional fraction; the empty string is `0`). -/
def jsNumberOfString (s : String) : Option ℚ :=
  let cs0 := s.toList.dropWhile Char.isWhitespace
  let cs := (cs0.reverse.dropWhile Char.isWhitespace).reverse
  if cs.isEmpty then some 0
  else
    let neg : Bool := match cs with | '-' :: _ => true | _ => false
    let cs2 := match cs with | '-' :: r => r | _ => cs
    let ip := cs2.takeWhile Char.isDigit
    let rest := cs2.drop ip.length
    match rest with
    | [] =>
      if ip.isEmpty then none
      else some ((if neg then -1 else 1) * (digitsToNat ip : ℚ))
    | '.' :: r =>
      let fp := r.takeWhile Char.isDigit
      if r.length = fp.length ∧ (¬ ip.isEmpty ∨ ¬ fp.isEmpty) then
        some ((if neg then -1 else 1) *
          ((digitsToNat ip : ℚ) + (digitsToNat fp : ℚ) / ((10 : ℚ) ^ fp.length)))
      else none
    | _ => none

/-- The numeric value of a metadata entry, as in `extractNumericFromMarket`:
numbers pass through, strings go through `Number(...)`, all else is `NaN`. -/
def metaNum : MetaVal → Option ℚ
  | .num q => some q
  | .str s => jsNumberOfString s
  | .other => none

/-- The twelve directly-probed metadata keys (orchestrator lines 280-293). -/
def directKeys : List String :=
  ["priceToBeat", "price_to_beat", "strikePrice", "strike_price", "strike",
   "threshold", "thresholdPrice", "threshold_price", "targetPrice",
   "target_price", "referencePrice", "reference_price"]

/-- Is the first list a prefix of the second? -/
def prefixOfB : List Char → List Char → Bool
  | [], _ => true
  | _ :: _, [] => false
  | n :: ns, h :: hs => n = h && prefixOfB ns hs

/-- Does the second list contain the first as a contiguous substring? -/
def containsSub (needle : List Char) : List Char → Bool
  | [] => needle.isEmpty
  | c :: rest => prefixOfB needle (c :: rest) || containsSub needle rest

/-- `/(price|strike|threshold|target|beat)/i.test(key.toLowerCase())`. -/
def keyMatches (k : String) : Bool :=
  ["price", "strike", "threshold", "target", "beat"].any
    (fun w => containsSub w.toList k.toLower.toList)

/-- The scan phase of `extractNumericFromMarket` (lines 301-325): any field
whose key matches the pattern and whose numeric value lies strictly between
1000 and 2000000. -/
def scanNumeric (m : Market) : Option ℚ :=
  m.fields.findSome? (fun kv =>
    if keyMatches kv.1 then
      match metaNum kv.2 with
      | some n => if 1000 < n ∧ n < 2000000 then some n else none
      | none => none
    else none)

/-- `extractNumericFromMarket` (orchestrator lines 279-328): the direct
keys first — with NO range restriction — then the key-pattern scan. -/
def extractNumericFromMarket (m : Market) : Option ℚ :=
  match directKeys.findSome?
      (fun k => (m.fields.find? (fun kv => kv.1 = k)).bind (fun kv => metaNum kv.2)) with
  | some n => some n
  | none => scanNumeric m

/-- `priceToBeatFromPolymarketMarket` (orchestrator lines 330-334):
metadata extraction FIRST, question-text parsing only as fallback. -/
def priceToBeatFromPolymarketMarket (m : Market) : Option ℚ :=
  match extractNumericFromMarket m with
  | some n => some n
  | none => parsePriceToBeat m

/-- The strike-latching step of the main loop (orchestrator lines 629-640),
for a newly observed market with a known chainlink price: market-derived
strike if available, otherwise latch the chainlink price once the market
has started. -/
def latchStrike (m : Market) (chainlink : ℚ) (marketStartMs : Option ℤ) (now : ℤ) :
    Option ℚ :=
  match priceToBeatFromPolymarketMarket m with
  | some n => some n
  | none =>
    if (match marketStartMs with | some s => decide (now ≥ s) | none => true) then
      some chainlink
    else none

/-! ## Concrete fixtures used by the verification theorems -/

/-- A flat one-minute candle closing at `c`. -/
def flatCandle (c : ℚ) : Candle := { openP := c, high := c, low := c, close := c, volume := 1 }

/-- Indicators realising the momentum-UP scenario of the spec (spot 100100,
strike 100000, last closes 100020 and 100080, RSI 62, MACD hist 5 over 3,
green Heiken-Ashi run of the given length). -/
def momIndicators (run : ℕ) : Indicators :=
  { ema21 := some 99000, ema9 := some 100050, rsi := 62,
    macd := some { hist := some 5, histPrev := some 3, histPrev2 := some 1, histDelta := some 2 },
    heikinAshi := { color := "green", count := run }, vwap := 100000,
    candles := [flatCandle 100020, flatCandle 100080] }

/-- The momentum-UP snapshot with given time left, HA run and UP odds. -/
def momCtx (t : ℚ) (run : ℕ) (oddsUp : Option ℚ) : ScalpContext :=
  { trend := "RISING", timeLeftMin := t, spotPrice := some 100100, strikePrice := some 100000,
    marketOdds := some { up := oddsUp, down := some (4/10) },
    indicators := some (momIndicators run) }

/-- A fresh trader state with the default balance. -/
def basePaperState : PaperState :=
  { balance := 100, positions := [], dailyLoss := 0, lastStopLossTime := 0,
    recentResults := [], lastDailyReset := 0, lastExitTime := 0, lastEntryTime := 0,
    consecutiveLosses := 0 }

/-- An open UP momentum position at 0.50. -/
def posMomUp : Position :=
  { pid := 0, marketSlug := "btc-15m", side := "UP", entryPrice := 1/2, amount := 4,
    shares := 8, entryTime := 0, hitBreakevenTrigger := false, strategy := "MOMENTUM",
    strikePrice := none, endDate := none }

/-- A recommendation carrying a Kelly probability of 0.70. -/
def kellyRec : TraderRec :=
  { strategy := some "MOMENTUM", probability := some (7/10), strikePrice := none, endDate := none }

def c5state : PaperState := { basePaperState with balance := 3 }

def c6state : PaperState := { basePaperState with positions := [posMomUp] }

def c7state : PaperState := { basePaperState with dailyLoss := 5, lastDailyReset := 1768478400000 }

def c10pos : Position := { posMomUp with shares := 10 }

/-- The expiry-settlement scenario: UP at 0.45, stake 4.5, 10 shares,
strike 100000. -/
def c3pos : Position :=
  { posMomUp with entryPrice := 9/20, amount := 9/2, shares := 10, strikePrice := some 100000 }

def c3state : PaperState := { basePaperState with positions := [c3pos] }

/-- The time-guard scenario position: UP momentum opened at 0.55. -/
def c4pos : Position := { posMomUp with entryPrice := 11/20 }

def c4state : PaperState := { basePaperState with positions := [c4pos] }

/-- The strike-priority counterexample market: the question text names
100000 but a direct metadata key holds 500. -/
def c9market : Market :=
  { question := some "Will Bitcoin be above $100,000?", title := none,
    fields := [("strikePrice", .num 500)] }

/-! # Theorems -/

/-- C7 (counterexample): the daily reset compares `getUTCDate()` values,
i.e. only the day-of-month.  2026-01-15 and 2026-02-15 are different UTC
calendar dates, yet the reset does not fire and `dailyLoss` is kept. -/
theorem daily_reset_cex :
    utcCivilDate 1768478400000 = (2026, 1, 15) ∧
    utcCivilDate 1771156800000 = (2026, 2, 15) ∧
    utcCivilDate 1768478400000 ≠ utcCivilDate 1771156800000 ∧
    c7state.lastDailyReset = 1768478400000 ∧
    resetDailyLossIfNeeded c7state 1771156800000 = c7state ∧
    (resetDailyLossIfNeeded c7state 1771156800000).dailyLoss = 5 := by
  decide

/-- C7 (amended): at a tick whose UTC day-of-month differs from that of
`lastDailyReset`, `dailyLoss` is zeroed and `lastDailyReset` updated; when
the day-of-month coincides (even across different months) nothing changes. -/
theorem daily_reset_day_of_month (st : PaperState) (now : ℤ) :
    (utcDayOfMonth st.lastDailyReset ≠ utcDayOfMonth now →
      resetDailyLossIfNeeded st now = { st with dailyLoss := 0, lastDailyReset := now }) ∧
    (utcDayOfMonth st.lastDailyReset = utcDayOfMonth now →
      resetDailyLossIfNeeded st now = st) := by
  constructor <;> intro h <;> simp [resetDailyLossIfNeeded, h]

/-- C7 witness: the reset does fire from 2026-01-15 to 2026-02-16 (a tick
whose UTC day-of-month differs). -/
theorem daily_reset_day_of_month_witness :
    utcDayOfMonth (1768478400000 : ℤ) ≠ utcDayOfMonth (1771243200000 : ℤ) ∧
    resetDailyLossIfNeeded c7state 1771243200000 =
      { c7state with dailyLoss := 0, lastDailyReset := 1771243200000 } :=
  ⟨by decide, (daily_reset_day_of_month c7state 1771243200000).1 (by decide)⟩

/-- C10 (counterexample): for a side price `q > 105` the operations do NOT
agree with price `q / 100`: at `q = 200` the unrealized PnL divides once
(price 2.00) but at `q / 100 = 2` it divides again (price 0.02). -/
theorem cents_normalization_cex :
    posUnrealized c10pos (some 200) = 16 ∧
    posUnrealized c10pos (some (200 / 100)) = -19/5 ∧
    posUnrealized c10pos (some 200) ≠ posUnrealized c10pos (some (200 / 100)) := by
  norm_num [posUnrealized, c10pos, posMomUp, normCents]

/-- C10 (amended): a side price `q` with `1.05 < q ≤ 105` is divided by 100;
a price `≤ 1.05` is used unchanged; and in that range exit checks, closing
and unrealized PnL at `q` agree with those at `q / 100`. -/
theorem cents_normalization (q : ℚ) (h1 : 21/20 < q) (h2 : q ≤ 105) :
    normCents q = q / 100 ∧
    (∀ r : ℚ, r ≤ 21/20 → normCents r = r) ∧
    (∀ pos : Position, posUnrealized pos (some q) = posUnrealized pos (some (q / 100))) ∧
    (∀ cfg pos tl trend now,
      exitReasonFor cfg pos q tl trend now = exitReasonFor cfg pos (q / 100) tl trend now) ∧
    (∀ cfg st pos r now,
      closePosition cfg st pos q r now = closePosition cfg st pos (q / 100) r now) := by
  have key : normCents q = q / 100 := if_pos h1
  have key2 : normCents (q / 100) = q / 100 := by
    unfold normCents
    rw [if_neg]
    intro hc
    have : q > 105 := by linarith
    linarith
  refine ⟨key, ?_, ?_, ?_, ?_⟩
  · intro r hr
    unfold normCents
    rw [if_neg]
    intro hc
    linarith
  · intro pos
    simp only [posUnrealized]
    rw [key, key2]
  · intro cfg pos tl trend now
    unfold exitReasonFor
    rw [key, key2]
  · intro cfg st pos r now
    unfold closePosition
    rw [key, key2]

/-- C10 witness: at `q = 2` (between 1.05 and 105) the normalisation gives
`2 / 100`. -/
theorem cents_normalization_witness :
    (21/20 : ℚ) < 2 ∧ (2 : ℚ) ≤ 105 ∧ normCents 2 = 2 / 100 :=
  ⟨by norm_num, by norm_num, (cents_normalization 2 (by norm_num) (by norm_num)).1⟩

/-- C9 (counterexample): on a market whose question text contains
"above $100,000" while the metadata key `strikePrice` holds `500`, the
strike resolves to 500: the metadata search runs FIRST (and the directly
probed keys carry no range restriction), the question text is only a
fallback. -/
theorem strike_priority_cex :
    parsePriceToBeat c9market = some 100000 ∧
    extractNumericFromMarket c9market = some 500 ∧
    priceToBeatFromPolymarketMarket c9market = some 500 ∧
    ¬ (1000 < (500 : ℚ)) ∧ (500 : ℚ) ≠ 100000 := by
  have hex : extractNumericFromMarket c9market = some 500 := by decide
  have h1 : scanText matchP2BAt "Will Bitcoin be above $100,000?".toList = none := by decide
  have h2 : scanText matchGtAt "Will Bitcoin be above $100,000?".toList = none := by decide
  have h3 : scanText matchAboveAt "Will Bitcoin be above $100,000?".toList =
      some ['1', '0', '0', ',', '0', '0', '0'] := by decide
  have h4 : numTokenToRat ['1', '0', '0', ',', '0', '0', '0'] = 100000 := by
    have h5 : List.filter (fun c => c ≠ ',') ['1', '0', '0', ',', '0', '0', '0'] =
        ['1', '0', '0', '0', '0', '0'] := by decide
    have h6 : digitsToNat ['1', '0', '0', '0', '0', '0'] = 100000 := by decide
    have h7 : List.takeWhile Char.isDigit ['1', '0', '0', '0', '0', '0'] =
        ['1', '0', '0', '0', '0', '0'] := by decide
    simp only [numTokenToRat, h5, h7, h6]
    norm_num [digitsToNat]
  refine ⟨?_, hex, ?_, by norm_num, by norm_num⟩
  · simp only [parsePriceToBeat, c9market]
    rw [if_neg (by decide)]
    rw [h1, h2, h3]
    simp [h4]
  · simp [priceToBeatFromPolymarketMarket, hex]

/-- C9 (amended): the strike for a new market is resolved in this order:
(a) `extractNumericFromMarket` — direct metadata keys with no range check,
then a key-pattern scan restricted to (1000, 2000000) — (b) only if that
yields nothing, the question-text parse, and (c) only if both fail, the
chainlink price is latched once the market has started. -/
theorem strike_priority (m : Market) (chainlink : ℚ) (startMs : Option ℤ) (now : ℤ) :
    (∀ n, extractNumericFromMarket m = some n → latchStrike m chainlink startMs now = some n) ∧
    (extractNumericFromMarket m = none →
      ∀ p, parsePriceToBeat m = some p → latchStrike m chainlink startMs now = some p) ∧
    (extractNumericFromMarket m = none → parsePriceToBeat m = none →
      latchStrike m chainlink startMs now =
        (if (match startMs with | some s => decide (now ≥ s) | none => true) then some chainlink
         else none)) ∧
    (∀ n, scanNumeric m = some n → 1000 < n ∧ n < 2000000) := by
  refine ⟨?_, ?_, ?_, ?_⟩
  · intro n h
    simp [latchStrike, priceToBeatFromPolymarketMarket, h]
  · intro h p hp
    simp [latchStrike, priceToBeatFromPolymarketMarket, h, hp]
  · intro h hp
    unfold latchStrike priceToBeatFromPolymarketMarket
    rw [h, hp]
  · intro n h
    obtain ⟨kv, hmem, hkv⟩ := List.exists_of_findSome?_eq_some h
    by_cases hk : keyMatches kv.1
    · rcases hmn : metaNum kv.2 with _ | v
      · simp [hk, hmn] at hkv
      · by_cases hr : (1000 : ℚ) < v ∧ v < 2000000
        · simp [hk, hmn, hr] at hkv
          exact hkv ▸ hr
        · simp [hk, hmn, hr] at hkv
    · simp [hk] at hkv

/-- C9 witness: for the counterexample market the metadata value 500 wins
and becomes the latched strike. -/
theorem strike_priority_witness :
    extractNumericFromMarket c9market = some 500 ∧
    latchStrike c9market 101000 none 0 = some 500 :=
  ⟨by decide, (strike_priority c9market 101000 none 0).1 500 (by decide)⟩

/-! ### Shared lemmas about `closePosition` and the entry pipeline -/

theorem closePosition_positions (cfg : PaperConfig) (st : PaperState) (pos : Position)
    (q : ℚ) (r : CloseReason) (now : ℤ) :
    (closePosition cfg st pos q r now).positions =
      st.positions.filter (fun p => p.pid ≠ pos.pid) := by
  unfold closePosition
  simp only [apply_ite PaperState.positions, ite_self]

theorem closePosition_positions_length (cfg : PaperConfig) (st : PaperState) (pos : Position)
    (q : ℚ) (r : CloseReason) (now : ℤ) :
    (closePosition cfg st pos q r now).positions.length ≤ st.positions.length := by
  rw [closePosition_positions]
  exact List.length_filter_le _ _

theorem foldl_flip_positions_length (cfg : PaperConfig) (ep : ℚ) (now : ℤ) :
    ∀ (l : List Position) (st : PaperState),
      ((l.foldl (fun s pos => closePosition cfg s pos ep .flipClose now) st).positions.length)
        ≤ st.positions.length := by
  intro l
  induction l with
  | nil => intro st; simp
  | cons p l ih =>
    intro st
    simpa using le_trans (ih _) (closePosition_positions_length cfg st p ep .flipClose now)

theorem entryFlip_positions_length (cfg : PaperConfig) (st : PaperState)
    (side slug : String) (ep : ℚ) (now : ℤ) :
    (entryFlip cfg st side slug ep now).positions.length ≤ st.positions.length := by
  dsimp only [entryFlip]
  split
  · exact le_refl _
  · split
    · exact foldl_flip_positions_length cfg ep now _ st
    · exact le_refl _

theorem entryOpen_positions_length (cfg : PaperConfig) (st1 : PaperState) (rec : TraderRec)
    (side slug : String) (t np : ℚ) (now : ℤ) (pid : ℕ) :
    (entryOpen cfg st1 rec side slug t np now pid).positions.length ≤
      max (orNat cfg.maxConcurrentPositions 2) st1.positions.length := by
  dsimp only [entryOpen]
  split
  next h =>
    simp only [List.length_append, List.length_cons, List.length_nil]
    exact le_trans h.1 (le_max_left _ _)
  next => exact le_max_right _ _

/-- C6 (counterexample): the duplicate-position guard reads the never-set
singular `state.position` field, so a second SAME-side entry on the same
market slug goes through: from one open UP position on "btc-15m", an UP
ENTER on "btc-15m" opens a second one. -/
theorem duplicate_guard_cex :
    c6state.positions = [posMomUp] ∧ posMomUp.side = "UP" ∧ posMomUp.marketSlug = "btc-15m" ∧
    (handleEntrySignal defaultPaperConfig c6state kellyRec "UP" "btc-15m"
        (some (1/2)) (some (1/2)) 60000 1).positions.length = 2 ∧
    (∀ p ∈ (handleEntrySignal defaultPaperConfig c6state kellyRec "UP" "btc-15m"
        (some (1/2)) (some (1/2)) 60000 1).positions,
      p.side = "UP" ∧ p.marketSlug = "btc-15m") := by
  norm_num [handleEntrySignal, entrySizing, entryFlip, entryOpen, defaultPaperConfig,
    c6state, basePaperState, posMomUp, kellyRec, orQ, orNat, orStr, numOrNull, msOrNull,
    calculateFee]

/-- C6 (amended): the capacity gate bounds the TOTAL number of open
positions (across all markets) by `maxConcurrentPositions` (default 2):
an entry never brings the count above `max 2` of what it already was.
The per-(slug, side) uniqueness of the original claim does not hold; the
duplicate guard never fires (see the counterexample). -/
theorem entry_capacity_total (st : PaperState) (rec : TraderRec) (side slug : String)
    (pUp pDown : Option ℚ) (now : ℤ) (pid : ℕ) :
    (handleEntrySignal defaultPaperConfig st rec side slug pUp pDown now pid).positions.length ≤
      max 2 st.positions.length := by
  have hmax : orNat defaultPaperConfig.maxConcurrentPositions 2 = 2 := by
    norm_num [orNat, defaultPaperConfig]
  unfold handleEntrySignal
  rcases hq : (if side = "UP" then pUp else pDown) with _ | ep
  · exact le_max_right _ _
  · dsimp only
    split_ifs <;>
      first
        | exact le_max_right _ _
        | (refine le_trans (entryOpen_positions_length _ _ _ _ _ _ _ _ _) ?_
           rw [hmax]
           exact max_le_max le_rfl (entryFlip_positions_length _ _ _ _ _ _))

/-! ### Balance lemmas for the entry path -/

theorem closePosition_balance (cfg : PaperConfig) (st : PaperState) (pos : Position)
    (q : ℚ) (r : CloseReason) (now : ℤ)
    (hex : ¬ (r.render = "EXPIRY" ∨ r.render = "SETTLE")) :
    (closePosition cfg st pos q r now).balance =
      st.balance + (pos.shares * normCents q - calculateFee cfg (pos.shares * normCents q) (normCents q)) := by
  dsimp only [closePosition]
  rw [if_neg hex]
  simp only [apply_ite PaperState.balance, ite_self]

theorem fee_le (t x : ℚ) (ht0 : 0 ≤ t) (h0 : 0 ≤ x) (h1 : x ≤ 1) :
    0 ≤ calculateFee defaultPaperConfig t x ∧ calculateFee defaultPaperConfig t x ≤ t / 64 := by
  have hk0 : 0 ≤ x * (1 - x) := mul_nonneg h0 (by linarith)
  have hk4 : x * (1 - x) ≤ 1/4 := by nlinarith [sq_nonneg (x - 1/2)]
  have hsq : (x * (1 - x))^2 ≤ 1/16 := by nlinarith
  have hsq0 : 0 ≤ (x * (1 - x))^2 := sq_nonneg _
  unfold calculateFee
  norm_num [defaultPaperConfig]
  constructor
  · positivity
  · nlinarith


theorem closePosition_balance_mono (st : PaperState) (pos : Position) (ep : ℚ) (now : ℤ)
    (hsh : 0 ≤ pos.shares) (h0 : 0 < ep) (h1 : ep < 1) :
    st.balance ≤ (closePosition defaultPaperConfig st pos ep .flipClose now).balance := by
  have hnorm : normCents ep = ep := by
    unfold normCents
    rw [if_neg]
    intro hc
    linarith
  rw [closePosition_balance defaultPaperConfig st pos ep .flipClose now (by decide), hnorm]
  have hp0 : 0 ≤ pos.shares * ep := mul_nonneg hsh (le_of_lt h0)
  obtain ⟨hf0, hf⟩ := fee_le (pos.shares * ep) ep hp0 (le_of_lt h0) (le_of_lt h1)
  linarith

theorem foldl_flip_balance_mono (ep : ℚ) (now : ℤ) (h0 : 0 < ep) (h1 : ep < 1) :
    ∀ (l : List Position) (st : PaperState), (∀ p ∈ l, 0 ≤ p.shares) →
      st.balance ≤
        (l.foldl (fun s pos => closePosition defaultPaperConfig s pos ep .flipClose now)
          st).balance := by
  intro l
  induction l with
  | nil => intro st _; simp
  | cons p l ih =>
    intro st hl
    simp only [List.foldl_cons]
    exact le_trans (closePosition_balance_mono st p ep now (hl p (by simp)) h0 h1)
      (ih _ (fun q hq => hl q (by simp [hq])))

theorem entryFlip_balance_mono (st : PaperState) (side slug : String) (ep : ℚ) (now : ℤ)
    (h0 : 0 < ep) (h1 : ep < 1) (hsh : ∀ p ∈ st.positions, 0 ≤ p.shares) :
    st.balance ≤ (entryFlip defaultPaperConfig st side slug ep now).balance := by
  dsimp only [entryFlip]
  split
  · exact le_refl _
  · split
    · exact foldl_flip_balance_mono ep now h0 h1 _ st
        (fun p hp => hsh p (List.mem_of_mem_filter hp))
    · exact le_refl _

theorem entrySizing_bounds (st : PaperState) (rec : TraderRec) (np : ℚ) :
    0 ≤ entrySizing defaultPaperConfig st rec np ∧ entrySizing defaultPaperConfig st rec np ≤ 5 := by
  unfold entrySizing
  rcases rec.probability with _ | p
  · dsimp [defaultPaperConfig]
    split_ifs <;> norm_num
  · dsimp [defaultPaperConfig]
    constructor
    · have : (3:ℚ) ≤ max 3 (min 5 (st.balance * (orQ (1/2) (1/2)) * ((p - np) / (1 - np)))) :=
        le_max_left _ _
      linarith
    · exact max_le (by norm_num) (min_le_left _ _)

theorem entryOpen_balance_floor (st1 : PaperState) (rec : TraderRec) (side slug : String)
    (t np : ℚ) (now : ℤ) (pid : ℕ)
    (hb : 0 ≤ st1.balance) (ht0 : 0 ≤ t) (ht5 : t ≤ 5) (h0 : 0 ≤ np) (h1 : np ≤ 1) :
    -(5/64 : ℚ) ≤ (entryOpen defaultPaperConfig st1 rec side slug t np now pid).balance := by
  dsimp only [entryOpen]
  split
  next h =>
    obtain ⟨hf0, hf⟩ := fee_le t np ht0 h0 h1
    have hbt : st1.balance ≥ t := h.2
    show -(5/64 : ℚ) ≤ st1.balance - (t + calculateFee defaultPaperConfig t np)
    linarith
  next => linarith

theorem entry_balance_floor (st : PaperState) (rec : TraderRec) (side slug : String)
    (pUp pDown : Option ℚ) (now : ℤ) (pid : ℕ)
    (hb : 0 ≤ st.balance) (hsh : ∀ p ∈ st.positions, 0 ≤ p.shares) :
    -(5/64 : ℚ) ≤ (handleEntrySignal defaultPaperConfig st rec side slug pUp pDown now pid).balance := by
  unfold handleEntrySignal
  rcases hq : (if side = "UP" then pUp else pDown) with _ | ep
  · linarith
  · dsimp only
    split_ifs with h1 h2 h3 h4 h5 h6 h7 h8 <;> try linarith
    all_goals {
      push_neg at h1
      have he0 : 0 < ep := h1.1
      have he1 : ep < 1 := h1.2
      first
        | exact absurd (by linarith : (1:ℚ) < ep) (by linarith)
        | ( obtain ⟨hs0, hs5⟩ := entrySizing_bounds st rec ep
            refine entryOpen_balance_floor _ _ _ _ _ _ _ _ ?_ hs0 hs5 (le_of_lt he0) (le_of_lt he1)
            exact le_trans hb (entryFlip_balance_mono st side slug ep now he0 he1 hsh) )
    }

/-- C5 (counterexample): the open gate checks only `balance >= stake`, not
`stake + fee`: from a balance of exactly $3 (= the Kelly-clamped stake) the
position opens and the balance lands at -3/64 < 0. -/
theorem entry_balance_cex :
    c5state.balance = 3 ∧
    calculateFee defaultPaperConfig 3 (1/2) = 3/64 ∧
    c5state.balance < 3 + calculateFee defaultPaperConfig 3 (1/2) ∧
    (handleEntrySignal defaultPaperConfig c5state kellyRec "UP" "btc-15m"
        (some (1/2)) (some (1/2)) 1000 0).positions.length = 1 ∧
    (handleEntrySignal defaultPaperConfig c5state kellyRec "UP" "btc-15m"
        (some (1/2)) (some (1/2)) 1000 0).balance = -(3/64) ∧
    ¬ (0 ≤ (handleEntrySignal defaultPaperConfig c5state kellyRec "UP" "btc-15m"
        (some (1/2)) (some (1/2)) 1000 0).balance) := by
  norm_num [handleEntrySignal, entrySizing, entryFlip, entryOpen, defaultPaperConfig,
    c5state, basePaperState, kellyRec, orQ, orNat, orStr, numOrNull, msOrNull, calculateFee]

/-- C5 (amended): an entry is gated by `balance >= stake` only (stake at
most $5 under the default config) and subtracts `stake + fee`, so from any
state with nonnegative balance and nonnegative share counts the balance
after an entry tick is never below -5/64 dollars (minus one maximal fee). -/
theorem entry_balance_floor_c5 (st : PaperState) (rec : TraderRec) (side slug : String)
    (pUp pDown : Option ℚ) (now : ℤ) (pid : ℕ)
    (hb : 0 ≤ st.balance) (hsh : ∀ p ∈ st.positions, 0 ≤ p.shares) :
    -(5/64 : ℚ) ≤ (handleEntrySignal defaultPaperConfig st rec side slug pUp pDown now pid).balance :=
  entry_balance_floor st rec side slug pUp pDown now pid hb hsh

/-- C5 witness: the floor theorem applied to the counterexample state. -/
theorem entry_balance_floor_c5_witness :
    (0 : ℚ) ≤ c5state.balance ∧
    -(5/64 : ℚ) ≤ (handleEntrySignal defaultPaperConfig c5state kellyRec "UP" "btc-15m"
        (some (1/2)) (some (1/2)) 1000 0).balance :=
  ⟨by norm_num [c5state, basePaperState],
   entry_balance_floor_c5 c5state kellyRec "UP" "btc-15m" (some (1/2)) (some (1/2)) 1000 0
     (by norm_num [c5state, basePaperState]) (by simp [c5state, basePaperState])⟩

/-! ### Expiry settlement -/

theorem closePosition_settle_win (st : PaperState) (pos : Position) (sp k : ℚ) (now : ℤ)
    (hw : pos.amount ≤ pos.shares) :
    (closePosition defaultPaperConfig st pos 1 (.expiryR sp k) now).balance
        = st.balance + pos.shares ∧
    (closePosition defaultPaperConfig st pos 1 (.expiryR sp k) now).dailyLoss
        = st.dailyLoss - (pos.shares - pos.amount) ∧
    (closePosition defaultPaperConfig st pos 1 (.expiryR sp k) now).recentResults
        = pushRing st.recentResults "WIN" ∧
    (closePosition defaultPaperConfig st pos 1 (.expiryR sp k) now).consecutiveLosses = 0 ∧
    (closePosition defaultPaperConfig st pos 1 (.expiryR sp k) now).positions
        = st.positions.filter (fun p => p.pid ≠ pos.pid) := by
  have hnorm : normCents 1 = 1 := by norm_num [normCents]
  have hfee : (if CloseReason.render (.expiryR sp k) = "EXPIRY" ∨
        CloseReason.render (.expiryR sp k) = "SETTLE" then (0:ℚ)
      else calculateFee defaultPaperConfig (pos.shares * 1) 1) = 0 := by
    split
    · rfl
    · norm_num [calculateFee, defaultPaperConfig]
  dsimp only [closePosition]
  rw [hnorm, hfee]
  rw [if_neg (show ¬ (pos.shares * 1 - 0 - pos.amount < 0) by push_neg; linarith)]
  refine ⟨?_, ?_, ?_, ?_, ?_⟩ <;> dsimp only <;> ring_nf

theorem closePosition_settle_loss (st : PaperState) (pos : Position) (sp k : ℚ) (now : ℤ)
    (ha : 0 < pos.amount) :
    (closePosition defaultPaperConfig st pos 0 (.expiryR sp k) now).balance = st.balance ∧
    (closePosition defaultPaperConfig st pos 0 (.expiryR sp k) now).dailyLoss
        = st.dailyLoss + pos.amount ∧
    (closePosition defaultPaperConfig st pos 0 (.expiryR sp k) now).recentResults
        = pushRing st.recentResults "LOSS" ∧
    (closePosition defaultPaperConfig st pos 0 (.expiryR sp k) now).consecutiveLosses
        = st.consecutiveLosses + 1 ∧
    (closePosition defaultPaperConfig st pos 0 (.expiryR sp k) now).positions
        = st.positions.filter (fun p => p.pid ≠ pos.pid) := by
  have hnorm : normCents 0 = 0 := by norm_num [normCents]
  have hfee : (if CloseReason.render (.expiryR sp k) = "EXPIRY" ∨
        CloseReason.render (.expiryR sp k) = "SETTLE" then (0:ℚ)
      else calculateFee defaultPaperConfig (pos.shares * 0) 0) = 0 := by
    split
    · rfl
    · norm_num [calculateFee, defaultPaperConfig]
  dsimp only [closePosition]
  rw [hnorm, hfee]
  rw [if_pos (show pos.shares * 0 - 0 - pos.amount < 0 by nlinarith)]
  have habs : |pos.shares * 0 - 0 - pos.amount| = pos.amount := by
    rw [abs_of_neg (show pos.shares * 0 - 0 - pos.amount < 0 by nlinarith)]
    ring
  refine ⟨?_, ?_, ?_, ?_, ?_⟩ <;> dsimp only <;> simp [habs]
  linarith


theorem checkResolution_single (st : PaperState) (pos : Position) (k s t : ℚ)
    (recStrike : Option ℚ) (now : ℤ)
    (hpos : st.positions = [pos]) (hk : pos.strikePrice = some k) (hk0 : k ≠ 0) (ht : t ≤ 0) :
    checkResolution defaultPaperConfig st recStrike (some s) (some t) now
      = closePosition defaultPaperConfig st pos
          (if (if pos.side = "UP" then k ≤ s else if pos.side = "DOWN" then s < k else False)
           then 1 else 0)
          (.expiryR s k) now := by
  unfold checkResolution
  rw [hpos]
  simp only [List.foldl_cons, List.foldl_nil]
  rw [hk]
  dsimp only
  rw [if_neg hk0]
  simp only [decide_eq_true ht, Bool.true_or, if_true]

/-- C3: at expiry (`timeLeftMin ≤ 0`) with strike and spot known, the
open position is settled: win = (UP: spot ≥ strike, DOWN: spot < strike);
the position closes at price exactly 1 (win) or 0 (loss) with a fee of 0
under the default (dynamic-fee) config, WIN/LOSS is recorded in the
ten-deep `recentResults` ring, `consecutiveLosses` resets to 0 on a win
(and increments on a loss), and the balance changes by exactly
`shares * 1` on a win and `0` on a loss (P&L `shares - amount` / `-amount`). -/
theorem expiry_settlement (st : PaperState) (pos : Position) (k s t : ℚ)
    (recStrike : Option ℚ) (now : ℤ)
    (hpos : st.positions = [pos])
    (hk : pos.strikePrice = some k) (hk0 : k ≠ 0)
    (ht : t ≤ 0)
    (hamt : 0 < pos.amount) (hsh : pos.amount ≤ pos.shares) :
    (pos.side = "UP" →
      (k ≤ s →
        (checkResolution defaultPaperConfig st recStrike (some s) (some t) now).balance
            = st.balance + pos.shares ∧
        (checkResolution defaultPaperConfig st recStrike (some s) (some t) now).dailyLoss
            = st.dailyLoss - (pos.shares - pos.amount) ∧
        (checkResolution defaultPaperConfig st recStrike (some s) (some t) now).recentResults
            = pushRing st.recentResults "WIN" ∧
        (checkResolution defaultPaperConfig st recStrike (some s) (some t) now).consecutiveLosses
            = 0 ∧
        (checkResolution defaultPaperConfig st recStrike (some s) (some t) now).positions = []) ∧
      (s < k →
        (checkResolution defaultPaperConfig st recStrike (some s) (some t) now).balance
            = st.balance ∧
        (checkResolution defaultPaperConfig st recStrike (some s) (some t) now).dailyLoss
            = st.dailyLoss + pos.amount ∧
        (checkResolution defaultPaperConfig st recStrike (some s) (some t) now).recentResults
            = pushRing st.recentResults "LOSS" ∧
        (checkResolution defaultPaperConfig st recStrike (some s) (some t) now).consecutiveLosses
            = st.consecutiveLosses + 1 ∧
        (checkResolution defaultPaperConfig st recStrike (some s) (some t) now).positions = [])) ∧
    (pos.side = "DOWN" →
      (s < k →
        (checkResolution defaultPaperConfig st recStrike (some s) (some t) now).balance
            = st.balance + pos.shares ∧
        (checkResolution defaultPaperConfig st recStrike (some s) (some t) now).recentResults
            = pushRing st.recentResults "WIN" ∧
        (checkResolution defaultPaperConfig st recStrike (some s) (some t) now).consecutiveLosses
            = 0 ∧
        (checkResolution defaultPaperConfig st recStrike (some s) (some t) now).positions = []) ∧
      (k ≤ s →
        (checkResolution defaultPaperConfig st recStrike (some s) (some t) now).balance
            = st.balance ∧
        (checkResolution defaultPaperConfig st recStrike (some s) (some t) now).recentResults
            = pushRing st.recentResults "LOSS" ∧
        (checkResolution defaultPaperConfig st recStrike (some s) (some t) now).positions = [])) := by
  have hone := checkResolution_single st pos k s t recStrike now hpos hk hk0 ht
  constructor
  · intro hside
    constructor
    · intro hwin
      have hprice : (if (if pos.side = "UP" then k ≤ s else if pos.side = "DOWN" then s < k
          else False) then (1:ℚ) else 0) = 1 := by
        rw [hside]
        simp [hwin]
      rw [hone, hprice]
      have h := closePosition_settle_win st pos s k now hsh
      rw [hpos] at h
      simpa using h
    · intro hlose
      have hprice : (if (if pos.side = "UP" then k ≤ s else if pos.side = "DOWN" then s < k
          else False) then (1:ℚ) else 0) = 0 := by
        rw [hside]
        simp [not_le.mpr hlose]
      rw [hone, hprice]
      have h := closePosition_settle_loss st pos s k now hamt
      rw [hpos] at h
      simpa using h
  · intro hside
    constructor
    · intro hwin
      have hprice : (if (if pos.side = "UP" then k ≤ s else if pos.side = "DOWN" then s < k
          else False) then (1:ℚ) else 0) = 1 := by
        rw [hside]
        simp [hwin]
      rw [hone, hprice]
      have h := closePosition_settle_win st pos s k now hsh
      rw [hpos] at h
      exact ⟨h.1, h.2.2.1, h.2.2.2.1, by simpa using h.2.2.2.2⟩
    · intro hlose
      have hprice : (if (if pos.side = "UP" then k ≤ s else if pos.side = "DOWN" then s < k
          else False) then (1:ℚ) else 0) = 0 := by
        rw [hside]
        simp [not_lt.mpr hlose]
      rw [hone, hprice]
      have h := closePosition_settle_loss st pos s k now hamt
      rw [hpos] at h
      exact ⟨h.1, h.2.2.1, by simpa using h.2.2.2.2⟩

/-- C3 witness: the spec scenario — UP at 0.45, strike 100000, spot 100050
at expiry: closed at 1.0, balance + shares, WIN recorded,
consecutiveLosses reset, position removed. -/
theorem expiry_settlement_witness :
    c3pos.side = "UP" ∧ (100000 : ℚ) ≤ 100050 ∧
    (checkResolution defaultPaperConfig c3state none (some 100050) (some 0) 900000).balance
        = c3state.balance + c3pos.shares ∧
    (checkResolution defaultPaperConfig c3state none (some 100050) (some 0) 900000).recentResults
        = pushRing c3state.recentResults "WIN" ∧
    (checkResolution defaultPaperConfig c3state none (some 100050) (some 0)
        900000).consecutiveLosses = 0 ∧
    (checkResolution defaultPaperConfig c3state none (some 100050) (some 0) 900000).positions
        = [] := by
  have h := ((expiry_settlement c3state c3pos 100000 100050 0 none 900000 rfl rfl
      (by norm_num) (by norm_num) (by norm_num [c3pos, posMomUp])
      (by norm_num [c3pos, posMomUp])).1 rfl).1 (by norm_num)
  exact ⟨rfl, by norm_num, h.1, h.2.2.1, h.2.2.2.1, h.2.2.2.2⟩

/-! ### Time-guard exits -/

theorem exitAfterTimeGuard_momentum_none (pos : Position) (normPrice roiPct age : ℚ)
    (tl : Option ℚ) (hstrat : pos.strategy = "MOMENTUM")
    (h1 : -40 < roiPct) (h2 : roiPct < 50) :
    exitAfterTimeGuard defaultPaperConfig pos normPrice roiPct age tl = none := by
  dsimp only [exitAfterTimeGuard, defaultPaperConfig]
  rw [if_neg (show ¬ (roiPct ≤ -(40:ℚ)) from by linarith)]
  rw [if_pos hstrat]
  rw [if_neg (show ¬ (roiPct ≥ orQ (50:ℚ) 50) from by
    rw [show orQ (50:ℚ) 50 = 50 from by norm_num [orQ]]
    linarith)]

/-- C4: when `timeLeftMin` is at or below the time-guard threshold
(0.5 min for LATE_WINDOW positions, else `timeGuardMinutes` = 2), the
position is closed with a TIME_GUARD_EXIT unless it is favored
(price > 0.50), hopeful (price > 0.20 and the trend matches the side), or
near-loss (price ≤ 1 - resolutionThreshold = 0.05); in particular a
favored UP momentum position (price 0.58 at 1.8 min) is not exited at all. -/
theorem timeguard_exit
    (pos : Position) (price t : ℚ) (trend : String) (now : ℤ)
    (pos2 : Position) (price2 t2 : ℚ) (trend2 : String) (now2 : ℤ)
    (st : PaperState) (slug : String) (pd : Option ℚ) :
    (t ≤ (if pos.strategy = "LATE_WINDOW" then (1:ℚ)/2 else 2) →
     ¬ ((1:ℚ)/2 < normCents price) →
     ¬ ((1:ℚ)/5 < normCents price ∧
         trend = (if pos.side = "UP" then "RISING" else "FALLING")) →
     ¬ (normCents price ≤ 1/20) →
     exitReasonFor defaultPaperConfig pos price (some t) trend now =
       some (.timeGuardExit (if pos.strategy = "LATE_WINDOW" then 1/2 else 2))) ∧
    (pos2.strategy = "MOMENTUM" →
     pos2.side = "UP" →
     t2 ≤ 2 →
     (1:ℚ)/2 < normCents price2 →
     -40 < (normCents price2 - pos2.entryPrice) / pos2.entryPrice * 100 →
     (normCents price2 - pos2.entryPrice) / pos2.entryPrice * 100 < 50 →
     exitReasonFor defaultPaperConfig pos2 price2 (some t2) trend2 now2 = none ∧
     (st.positions = [pos2] → pos2.marketSlug = slug →
      checkExitConditions defaultPaperConfig st slug (some price2) pd (some t2) trend2 now2
        = st)) := by
  constructor
  · intro hguard hfav hhope hnear
    dsimp only [exitReasonFor, defaultPaperConfig]
    rw [show orQ (2:ℚ) 2 = 2 from by norm_num [orQ]]
    rw [show orQ ((95:ℚ)/100) (95/100) = 95/100 from by norm_num [orQ]]
    rw [if_pos hguard]
    rw [if_neg]
    rintro (h | h | h)
    · exact hfav h
    · exact hhope h
    · exact hnear (by linarith)
  · intro hstrat hside ht2 hfav hroi1 hroi2
    have hmain : exitReasonFor defaultPaperConfig pos2 price2 (some t2) trend2 now2 = none := by
      dsimp only [exitReasonFor]
      rw [hstrat]
      rw [if_neg (show ¬ (("MOMENTUM" : String) = "LATE_WINDOW") from by decide)]
      rw [show orQ defaultPaperConfig.timeGuardMinutes 2 = 2 from by
        norm_num [orQ, defaultPaperConfig]]
      rw [if_pos ht2]
      rw [if_pos (Or.inl hfav)]
      exact exitAfterTimeGuard_momentum_none pos2 _ _ _ _ hstrat hroi1 hroi2
    refine ⟨hmain, fun hpos hslug => ?_⟩
    dsimp only [checkExitConditions]
    rw [hpos]
    simp only [List.foldl_cons, List.foldl_nil]
    rw [if_pos hslug, hside]
    rw [show (if ("UP" : String) = "UP" then some price2 else pd) = some price2 from by simp]
    dsimp only
    rw [hmain]

/-- C4 witness: at 1.8 min left, an UP momentum position priced 0.30 with
falling trend is closed by the time guard, while the spec scenario (entry
0.55, price 0.58, trend RISING) is held with no exit. -/
theorem timeguard_exit_witness :
    exitReasonFor defaultPaperConfig c4pos (3/10) (some (9/5)) "FALLING" 1000
        = some (.timeGuardExit 2) ∧
    exitReasonFor defaultPaperConfig c4pos (29/50) (some (9/5)) "RISING" 1000 = none ∧
    checkExitConditions defaultPaperConfig c4state "btc-15m" (some (29/50)) none
        (some (9/5)) "RISING" 1000 = c4state := by
  have hL : ¬ (c4pos.strategy = "LATE_WINDOW") := by decide
  have h3 : ¬ ((1:ℚ)/5 < normCents (3/10) ∧
      "FALLING" = (if c4pos.side = "UP" then "RISING" else "FALLING")) := by
    rintro ⟨-, hc⟩
    rw [if_pos (show c4pos.side = "UP" from rfl)] at hc
    exact absurd hc (by decide)
  have h := timeguard_exit c4pos (3/10) (9/5) "FALLING" 1000 c4pos (29/50) (9/5) "RISING" 1000
      c4state "btc-15m" none
  have h1 := h.1 (by rw [if_neg hL]; norm_num) (by norm_num [normCents]) h3
    (by norm_num [normCents])
  have h2 := h.2 rfl rfl (by norm_num) (by norm_num [normCents])
    (by norm_num [normCents, c4pos, posMomUp]) (by norm_num [normCents, c4pos, posMomUp])
  rw [if_neg hL] at h1
  exact ⟨h1, h2.1, h2.2 rfl rfl⟩


theorem checkMomentum_up (S : StratCfg) (spot strike t e21 rsi : ℚ) (ha : HeikinAshi)
    (mac : Macd) (u : ℚ) (d : Option ℚ) (cs : List Candle)
    (ht : 3/2 ≤ t)
    (hlen : 2 ≤ cs.length)
    (hdiff : spot - strike > 50)
    (hpers : ∀ c ∈ cs.drop (cs.length - 2), c.close > strike)
    (hema : spot > e21)
    (hcol : ha.color = "green") (hcount : 2 ≤ ha.count)
    (hrsi1 : 40 ≤ rsi) (hrsi2 : rsi ≤ 80)
    (hh0 : jsNum mac.hist > 0) (hhp : mac.histPrev ≠ none) (hhp0 : jsNum mac.histPrev > 0)
    (hgrow : jsNum mac.hist > jsNum mac.histPrev) :
    (u < 85/100 → u < 1 - S.minOddsEdge →
      checkMomentum S (some spot) (some strike) t (some e21) ha rsi mac (some u) d cs
        = { action := .ENTER, strategy := some "MOMENTUM", side := some "UP",
            confidence := some "HIGH", reason := .momUp rsi ha.count (spot - strike) }) ∧
    (¬ (u < 85/100) →
      checkMomentum S (some spot) (some strike) t (some e21) ha rsi mac (some u) d cs
        = noTradeMom (.oddsTooHighUp u)) := by
  unfold checkMomentum
  dsimp only [jsNum, Option.getD]
  rw [if_neg (not_lt.mpr ht), if_neg (not_lt.mpr hlen)]
  rw [if_pos ⟨hdiff, hpers, hema, hcol, hcount, hrsi1, hrsi2, hh0, hhp, hhp0, hgrow⟩]
  constructor
  · intro h1 h2
    rw [if_pos ⟨h1, h2⟩]
  · intro h1
    rw [if_neg (fun hc => h1 hc.1)]

theorem checkMomentum_down (S : StratCfg) (spot strike t e21 rsi : ℚ) (ha : HeikinAshi)
    (mac : Macd) (u : Option ℚ) (d : ℚ) (cs : List Candle)
    (ht : 3/2 ≤ t)
    (hlen : 2 ≤ cs.length)
    (hdiff : spot - strike < -50)
    (hpers : ∀ c ∈ cs.drop (cs.length - 2), c.close < strike)
    (hema : spot < e21)
    (hcol : ha.color = "red") (hcount : 2 ≤ ha.count)
    (hrsi1 : 20 ≤ rsi) (hrsi2 : rsi ≤ 60)
    (hh0 : jsNum mac.hist < 0) (hhp : mac.histPrev ≠ none) (hhp0 : jsNum mac.histPrev < 0)
    (hgrow : jsNum mac.hist < jsNum mac.histPrev) :
    (d < 85/100 → d < 1 - S.minOddsEdge →
      checkMomentum S (some spot) (some strike) t (some e21) ha rsi mac u (some d) cs
        = { action := .ENTER, strategy := some "MOMENTUM", side := some "DOWN",
            confidence := some "HIGH", reason := .momDown rsi ha.count (spot - strike) }) ∧
    (¬ (d < 85/100) →
      checkMomentum S (some spot) (some strike) t (some e21) ha rsi mac u (some d) cs
        = noTradeMom (.oddsTooHighDown d)) := by
  have hnotup : ¬ (spot - strike > 50 ∧ (∀ c ∈ cs.drop (cs.length - 2), c.close > strike) ∧
      spot > jsNum (some e21) ∧ ha.color = "green" ∧ ha.count ≥ 2 ∧ rsi ≥ 40 ∧ rsi ≤ 80 ∧
      (jsNum mac.hist > 0 ∧ mac.histPrev ≠ none ∧ jsNum mac.histPrev > 0 ∧
        jsNum mac.hist > jsNum mac.histPrev)) := by
    rintro ⟨-, -, -, hg, -⟩
    rw [hcol] at hg
    exact absurd hg (by decide)
  unfold checkMomentum
  dsimp only
  rw [if_neg (not_lt.mpr ht), if_neg (not_lt.mpr hlen)]
  rw [if_neg hnotup]
  dsimp only [jsNum, Option.getD]
  rw [if_pos ⟨hdiff, hpers, hema, hcol, hcount, hrsi1, hrsi2, hh0, hhp, hhp0, hgrow⟩]
  constructor
  · intro h1 h2
    rw [if_pos ⟨h1, h2⟩]
  · intro h1
    rw [if_neg (fun hc => h1 hc.1)]


theorem evaluate_dispatch (S : StratCfg) (ctx : ScalpContext) (ind : Indicators) (mac : Macd)
    (odds : MarketOdds) (hi : ctx.indicators = some ind) (ho : ctx.marketOdds = some odds)
    (hm : ind.macd = some mac) (hgate : ¬ (ind.ema21 = none ∨ ind.ema21 = some 0)) :
    evaluateScalpDetails S ctx
      = evalBody S ctx.timeLeftMin ctx.spotPrice ctx.strikePrice ind mac odds := by
  unfold evaluateScalpDetails
  rw [hi, ho]
  dsimp only
  rw [hm]
  dsimp only
  rw [if_neg hgate]

theorem evalBody_momentum (S : StratCfg) (t : ℚ) (spot strike : Option ℚ)
    (ind : Indicators) (mac : Macd) (odds : MarketOdds)
    (hsn : (checkTrendSniper spot strike ind.heikinAshi ind.rsi odds.up odds.down).action
        ≠ .ENTER)
    (ht : 3/2 < t) :
    evalBody S t spot strike ind mac odds
      = checkMomentum S spot strike t ind.ema21 ind.heikinAshi ind.rsi mac odds.up odds.down
          ind.candles := by
  unfold evalBody
  rw [if_neg (fun h => hsn h.2.2), if_pos ht]

theorem evalBody_late (S : StratCfg) (t : ℚ) (spot strike : Option ℚ)
    (ind : Indicators) (mac : Macd) (odds : MarketOdds)
    (hsn : (checkTrendSniper spot strike ind.heikinAshi ind.rsi odds.up odds.down).action
        ≠ .ENTER)
    (h1 : 1 ≤ t) (h2 : t ≤ 3/2) :
    evalBody S t spot strike ind mac odds
      = checkLateWindow S spot strike ind.heikinAshi odds.up odds.down ind.candles := by
  unfold evalBody
  rw [if_neg (fun h => hsn h.2.2), if_neg (by linarith), if_pos ⟨h1, h2⟩]

theorem evalBody_lt_one (S : StratCfg) (t : ℚ) (spot strike : Option ℚ)
    (ind : Indicators) (mac : Macd) (odds : MarketOdds)
    (hsn : (checkTrendSniper spot strike ind.heikinAshi ind.rsi odds.up odds.down).action
        ≠ .ENTER)
    (ht : t < 1) :
    (evalBody S t spot strike ind mac odds).action = .NO_TRADE := by
  unfold evalBody
  rw [if_neg (fun h => hsn h.2.2), if_neg (by linarith), if_neg (fun h => absurd h.1 (by linarith))]
  rfl


theorem evalBody_gt_two (S : StratCfg) (t : ℚ) (spot strike : Option ℚ)
    (ind : Indicators) (mac : Macd) (odds : MarketOdds) (ht : 2 < t) :
    evalBody S t spot strike ind mac odds
      = checkMomentum S spot strike t ind.ema21 ind.heikinAshi ind.rsi mac odds.up odds.down
          ind.candles := by
  unfold evalBody
  rw [if_neg (fun h => absurd h.2.1 (by linarith)), if_pos (by linarith)]

theorem toFixed2_88 : toFixed2 (88/100) = "0.88" := by
  have hr : round ((88:ℚ)/100 * 100) = 88 := by norm_num [round_eq]
  dsimp only [toFixed2]
  rw [hr]
  rfl

/-- C1 (amended): for `timeLeftMin > 2` (strictly outside the Sniper window)
a full momentum-UP setup with `oddsUp < 0.85` and `oddsUp < 1 - minOddsEdge`
yields ENTER UP MOMENTUM HIGH, and the same setup with `oddsUp = 0.88` yields
NO_TRADE with rendered reason `"odds_too_high_up_0.88"`; mirrored for DOWN.
The original claim said this for all `timeLeftMin ≥ 2`, but at exactly 2.0
the Sniper is tried first and can return ENTER SNIPER (counterexample). -/
theorem momentum_bucket_entry (S : StratCfg) (trend trend2 : String)
    (t spot strike e21 rsi u : ℚ) (e9 : Option ℚ) (mac : Macd) (ha : HeikinAshi)
    (vw : ℚ) (cs : List Candle) (d : Option ℚ)
    (t2 spot2 strike2 e212 rsi2 d2 : ℚ) (e92 : Option ℚ) (mac2 : Macd) (ha2 : HeikinAshi)
    (vw2 : ℚ) (cs2 : List Candle) (u2 : Option ℚ)
    (ht : 2 < t) (he0 : e21 ≠ 0) (hlen : 2 ≤ cs.length)
    (hdiff : spot - strike > 50)
    (hpers : ∀ c ∈ cs.drop (cs.length - 2), c.close > strike)
    (hema : spot > e21) (hcol : ha.color = "green") (hcount : 2 ≤ ha.count)
    (hrsi1 : 40 ≤ rsi) (hrsi2 : rsi ≤ 80)
    (hh0 : jsNum mac.hist > 0) (hhp : mac.histPrev ≠ none) (hhp0 : jsNum mac.histPrev > 0)
    (hgrow : jsNum mac.hist > jsNum mac.histPrev)
    (ht2 : 2 < t2) (he02 : e212 ≠ 0) (hlen2 : 2 ≤ cs2.length)
    (hdiff2 : spot2 - strike2 < -50)
    (hpers2 : ∀ c ∈ cs2.drop (cs2.length - 2), c.close < strike2)
    (hema2 : spot2 < e212) (hcol2 : ha2.color = "red") (hcount2 : 2 ≤ ha2.count)
    (hrsi12 : 20 ≤ rsi2) (hrsi22 : rsi2 ≤ 60)
    (hh02 : jsNum mac2.hist < 0) (hhp2 : mac2.histPrev ≠ none) (hhp02 : jsNum mac2.histPrev < 0)
    (hgrow2 : jsNum mac2.hist < jsNum mac2.histPrev) :
    ((u < 85/100 → u < 1 - S.minOddsEdge →
       evaluateScalpDetails S ⟨trend, t, some spot, some strike, some ⟨some u, d⟩,
         some ⟨some e21, e9, rsi, some mac, ha, vw, cs⟩⟩
         = { action := .ENTER, strategy := some "MOMENTUM", side := some "UP",
             confidence := some "HIGH", reason := .momUp rsi ha.count (spot - strike) }) ∧
     (u = 88/100 →
       evaluateScalpDetails S ⟨trend, t, some spot, some strike, some ⟨some u, d⟩,
         some ⟨some e21, e9, rsi, some mac, ha, vw, cs⟩⟩
         = noTradeMom (.oddsTooHighUp (88/100)) ∧
       (evaluateScalpDetails S ⟨trend, t, some spot, some strike, some ⟨some u, d⟩,
         some ⟨some e21, e9, rsi, some mac, ha, vw, cs⟩⟩).reason.render
         = "odds_too_high_up_0.88")) ∧
    ((d2 < 85/100 → d2 < 1 - S.minOddsEdge →
       evaluateScalpDetails S ⟨trend2, t2, some spot2, some strike2, some ⟨u2, some d2⟩,
         some ⟨some e212, e92, rsi2, some mac2, ha2, vw2, cs2⟩⟩
         = { action := .ENTER, strategy := some "MOMENTUM", side := some "DOWN",
             confidence := some "HIGH", reason := .momDown rsi2 ha2.count (spot2 - strike2) }) ∧
     (d2 = 88/100 →
       evaluateScalpDetails S ⟨trend2, t2, some spot2, some strike2, some ⟨u2, some d2⟩,
         some ⟨some e212, e92, rsi2, some mac2, ha2, vw2, cs2⟩⟩
         = noTradeMom (.oddsTooHighDown (88/100)) ∧
       (evaluateScalpDetails S ⟨trend2, t2, some spot2, some strike2, some ⟨u2, some d2⟩,
         some ⟨some e212, e92, rsi2, some mac2, ha2, vw2, cs2⟩⟩).reason.render
         = "odds_too_high_down_0.88")) := by
  have hdispU : evaluateScalpDetails S ⟨trend, t, some spot, some strike, some ⟨some u, d⟩,
      some ⟨some e21, e9, rsi, some mac, ha, vw, cs⟩⟩
      = checkMomentum S (some spot) (some strike) t (some e21) ha rsi mac (some u) d cs := by
    rw [evaluate_dispatch S _ ⟨some e21, e9, rsi, some mac, ha, vw, cs⟩ mac ⟨some u, d⟩
      rfl rfl rfl (by simp [he0])]
    exact evalBody_gt_two S t (some spot) (some strike) _ mac _ ht
  have hdispD : evaluateScalpDetails S ⟨trend2, t2, some spot2, some strike2,
      some ⟨u2, some d2⟩, some ⟨some e212, e92, rsi2, some mac2, ha2, vw2, cs2⟩⟩
      = checkMomentum S (some spot2) (some strike2) t2 (some e212) ha2 rsi2 mac2 u2
          (some d2) cs2 := by
    rw [evaluate_dispatch S _ ⟨some e212, e92, rsi2, some mac2, ha2, vw2, cs2⟩ mac2
      ⟨u2, some d2⟩ rfl rfl rfl (by simp [he02])]
    exact evalBody_gt_two S t2 (some spot2) (some strike2) _ mac2 _ ht2
  have hup := checkMomentum_up S spot strike t e21 rsi ha mac u d cs (by linarith) hlen hdiff
    hpers hema hcol hcount hrsi1 hrsi2 hh0 hhp hhp0 hgrow
  have hdn := checkMomentum_down S spot2 strike2 t2 e212 rsi2 ha2 mac2 u2 d2 cs2 (by linarith)
    hlen2 hdiff2 hpers2 hema2 hcol2 hcount2 hrsi12 hrsi22 hh02 hhp2 hhp02 hgrow2
  constructor
  · constructor
    · intro h1 h2
      rw [hdispU]
      exact hup.1 h1 h2
    · intro hu
      subst hu
      have h := hup.2 (by norm_num)
      rw [hdispU, h]
      refine ⟨rfl, ?_⟩
      simp only [noTradeMom, Reason.render]
      rw [toFixed2_88]
      rfl
  · constructor
    · intro h1 h2
      rw [hdispD]
      exact hdn.1 h1 h2
    · intro hd
      subst hd
      have h := hdn.2 (by norm_num)
      rw [hdispD, h]
      refine ⟨rfl, ?_⟩
      simp only [noTradeMom, Reason.render]
      rw [toFixed2_88]
      rfl


/-- C1 (counterexample): at `timeLeftMin = 2` — inside the claimed Momentum
bucket — with a full momentum-UP setup and `oddsUp = 0.88`, the evaluator
returns ENTER SNIPER (the Sniper window is `0.5 ≤ t ≤ 2` and its odds cap
is 0.90), not the claimed NO_TRADE `odds_too_high_up_0.88`. -/
theorem momentum_bucket_cex :
    (momCtx 2 6 (some (88/100))).timeLeftMin = 2 ∧
    evaluateScalpDetails stratCfg (momCtx 2 6 (some (88/100)))
      = { action := .ENTER, strategy := some "SNIPER", side := some "UP",
          confidence := some "MAX", reason := .sniperUp 6 62 } := by
  refine ⟨rfl, ?_⟩
  norm_num [evaluateScalpDetails, evalBody, checkTrendSniper, momCtx, momIndicators,
    flatCandle, jsNum]
  intro h
  exact absurd h (by simp)

/-- C1 witness: the spec scenario at 2.5 minutes left (UP pack, odds 0.60)
together with a mirrored DOWN pack. -/
theorem momentum_bucket_entry_witness :
    ((6:ℚ)/10 < 85/100 ∧ (6:ℚ)/10 < 1 - stratCfg.minOddsEdge) ∧
    evaluateScalpDetails stratCfg ⟨"RISING", 5/2, some 100100, some 100000,
        some ⟨some (6/10), some (4/10)⟩,
        some ⟨some 99000, some 99500, 62, some ⟨some 5, some 3, some 1, some 2⟩,
          ⟨"green", 2⟩, 100000, [flatCandle 100020, flatCandle 100080]⟩⟩
      = { action := .ENTER, strategy := some "MOMENTUM", side := some "UP",
          confidence := some "HIGH", reason := .momUp 62 2 (100100 - 100000) } :=
  ⟨⟨by norm_num, by norm_num [stratCfg]⟩,
    (momentum_bucket_entry stratCfg "RISING" "RISING" (5/2) 100100 100000 99000 62 (6/10)
      (some 99500) ⟨some 5, some 3, some 1, some 2⟩ ⟨"green", 2⟩ 100000
      [flatCandle 100020, flatCandle 100080] (some (4/10))
      (5/2) 99900 100000 101000 38 (88/100) (some 99500)
      ⟨some (-5), some (-3), some 1, some 2⟩ ⟨"red", 2⟩ 100000
      [flatCandle 99980, flatCandle 99920] (some (1/10))
      (by norm_num) (by norm_num) (by norm_num)
      (by norm_num) (by decide) (by norm_num)
      rfl (by norm_num) (by norm_num) (by norm_num)
      (by decide) (by simp) (by decide) (by decide)
      (by norm_num) (by norm_num) (by norm_num)
      (by norm_num) (by decide) (by norm_num)
      rfl (by norm_num) (by norm_num) (by norm_num)
      (by decide) (by simp) (by decide) (by decide)).1.1
      (by norm_num) (by norm_num [stratCfg])⟩

/-- C2 (amended): when the data gate passes and the Sniper declines, the
evaluator falls through to Momentum only for `timeLeftMin > 1.5`; for
`1.0 ≤ timeLeftMin ≤ 1.5` it runs the Late Window instead, and for
`timeLeftMin < 1.0` it returns NO_TRADE.  The original claim that Momentum
is reachable anywhere in `0.5 – 2.0` fails on `[1.0, 1.5]` (counterexample);
its `timeLeftMin < 1.0 ⇒ NO_TRADE` half is the third conjunct here. -/
theorem bucket_dispatch (S : StratCfg) (ctx : ScalpContext) (ind : Indicators) (mac : Macd)
    (odds : MarketOdds) (hi : ctx.indicators = some ind) (ho : ctx.marketOdds = some odds)
    (hm : ind.macd = some mac) (hgate : ¬ (ind.ema21 = none ∨ ind.ema21 = some 0))
    (hsn : (checkTrendSniper ctx.spotPrice ctx.strikePrice ind.heikinAshi ind.rsi odds.up
        odds.down).action ≠ .ENTER) :
    (3/2 < ctx.timeLeftMin →
      evaluateScalpDetails S ctx
        = checkMomentum S ctx.spotPrice ctx.strikePrice ctx.timeLeftMin ind.ema21
            ind.heikinAshi ind.rsi mac odds.up odds.down ind.candles) ∧
    (1 ≤ ctx.timeLeftMin → ctx.timeLeftMin ≤ 3/2 →
      evaluateScalpDetails S ctx
        = checkLateWindow S ctx.spotPrice ctx.strikePrice ind.heikinAshi odds.up odds.down
            ind.candles) ∧
    (ctx.timeLeftMin < 1 → (evaluateScalpDetails S ctx).action = .NO_TRADE) := by
  refine ⟨fun h => ?_, fun h1 h2 => ?_, fun h => ?_⟩ <;>
    rw [evaluate_dispatch S ctx ind mac odds hi ho hm hgate]
  · exact evalBody_momentum S ctx.timeLeftMin ctx.spotPrice ctx.strikePrice ind mac odds hsn h
  · exact evalBody_late S ctx.timeLeftMin ctx.spotPrice ctx.strikePrice ind mac odds hsn h1 h2
  · exact evalBody_lt_one S ctx.timeLeftMin ctx.spotPrice ctx.strikePrice ind mac odds hsn h

/-- C2 (counterexample): at `timeLeftMin = 1.2` — inside the claimed
`0.5 – 2.0` Momentum fall-through — with the Sniper declining, the evaluator
produces the LATE_WINDOW result, which differs from what `checkMomentum`
would return on the same inputs, so Momentum is not tried there. -/
theorem bucket_dispatch_cex :
    ((1:ℚ)/2 ≤ 6/5 ∧ (6:ℚ)/5 ≤ 2) ∧
    (checkTrendSniper (some 100100) (some 100000) ⟨"green", 2⟩ 62 (some (6/10))
        (some (4/10))).action ≠ .ENTER ∧
    (evaluateScalpDetails stratCfg (momCtx (6/5) 2 (some (6/10)))).strategy
        = some "LATE_WINDOW" ∧
    evaluateScalpDetails stratCfg (momCtx (6/5) 2 (some (6/10)))
      ≠ checkMomentum stratCfg (some 100100) (some 100000) (6/5) (some 99000)
          ⟨"green", 2⟩ 62 ⟨some 5, some 3, some 1, some 2⟩ (some (6/10)) (some (4/10))
          [flatCandle 100020, flatCandle 100080] := by
  refine ⟨⟨by norm_num, by norm_num⟩, ?_, ?_, ?_⟩
  · norm_num [checkTrendSniper, noTradeSniper]
    decide
  · norm_num [evaluateScalpDetails, evalBody, checkTrendSniper, checkLateWindow, momCtx,
      momIndicators, flatCandle, jsNum, noTradeSniper, noTradeLate]
    rw [if_neg (fun h => Option.noConfusion h), if_neg (fun h => Action.noConfusion h)]
  · norm_num [evaluateScalpDetails, evalBody, checkTrendSniper, checkLateWindow,
      checkMomentum, momCtx, momIndicators, flatCandle, jsNum, noTradeSniper, noTradeLate,
      noTradeMom]
    rw [if_neg (fun h => Option.noConfusion h), if_neg (fun h => Action.noConfusion h)]
    intro h
    have hs := congrArg Rec.strategy h
    simp at hs

/-- C2 witness: the dispatch theorem applied at 1.2 minutes left. -/
theorem bucket_dispatch_witness :
    ((momCtx (6/5) 2 (some (6/10))).indicators = some (momIndicators 2) ∧
      (1:ℚ) ≤ 6/5 ∧ (6:ℚ)/5 ≤ 3/2) ∧
    evaluateScalpDetails stratCfg (momCtx (6/5) 2 (some (6/10)))
      = checkLateWindow stratCfg (some 100100) (some 100000) ⟨"green", 2⟩ (some (6/10))
          (some (4/10)) [flatCandle 100020, flatCandle 100080] :=
  ⟨⟨rfl, by norm_num, by norm_num⟩,
    (bucket_dispatch stratCfg (momCtx (6/5) 2 (some (6/10))) (momIndicators 2)
      ⟨some 5, some 3, some 1, some 2⟩ ⟨some (6/10), some (4/10)⟩ rfl rfl rfl
      (by simp [momIndicators])
      (by norm_num [momCtx, momIndicators, checkTrendSniper, noTradeSniper]; decide)).2.1
      (by norm_num [momCtx]) (by norm_num [momCtx])⟩


theorem checkTrendSniper_reason_ne (spot strike : Option ℚ) (ha : HeikinAshi) (rsi : ℚ)
    (u d : Option ℚ) : (checkTrendSniper spot strike ha rsi u d).reason ≠ .missing_data := by
  rcases spot with _ | s <;> rcases strike with _ | k <;>
    simp only [checkTrendSniper] <;>
    first
      | (split_ifs <;> simp [noTradeSniper])
      | simp [noTradeSniper]

theorem checkMomentum_reason_ne (S : StratCfg) (spot strike : Option ℚ) (t : ℚ)
    (e21 : Option ℚ) (ha : HeikinAshi) (rsi : ℚ) (mac : Macd) (u d : Option ℚ)
    (cs : List Candle) :
    (checkMomentum S spot strike t e21 ha rsi mac u d cs).reason ≠ .missing_data := by
  rcases spot with _ | s <;> rcases strike with _ | k <;>
    simp only [checkMomentum] <;>
    first
      | (split_ifs <;> simp [noTradeMom])
      | simp [noTradeMom]

theorem checkLateWindow_reason_ne (S : StratCfg) (spot strike : Option ℚ)
    (ha : HeikinAshi) (u d : Option ℚ) (cs : List Candle) :
    (checkLateWindow S spot strike ha u d cs).reason ≠ .missing_data := by
  rcases spot with _ | s <;> rcases strike with _ | k <;>
    simp only [checkLateWindow] <;>
    first
      | (split_ifs <;> simp [noTradeLate])
      | simp [noTradeLate]

theorem evalBody_reason_ne (S : StratCfg) (t : ℚ) (spot strike : Option ℚ)
    (ind : Indicators) (mac : Macd) (odds : MarketOdds) :
    (evalBody S t spot strike ind mac odds).reason ≠ .missing_data := by
  unfold evalBody
  dsimp only
  split_ifs
  · exact checkTrendSniper_reason_ne spot strike ind.heikinAshi ind.rsi odds.up odds.down
  · exact checkMomentum_reason_ne S spot strike t ind.ema21 ind.heikinAshi ind.rsi mac
      odds.up odds.down ind.candles
  · exact checkLateWindow_reason_ne S spot strike ind.heikinAshi odds.up odds.down ind.candles
  · simp [noTradeBase]

/-- C8 (amended): the evaluator returns reason `missing_data` exactly when
the JS gate `!indicators || !indicators.ema21 || !indicators.macd ||
!marketOdds` fires (`missingDataB`), and then the result is the NO_TRADE
record.  The gate checks neither a 30-candle minimum nor that per-side odds
lie in (0,1): the counterexample enters on 2 candles with null UP odds. -/
theorem missing_data_gate (S : StratCfg) (ctx : ScalpContext) :
    ((evaluateScalpDetails S ctx).reason = .missing_data ↔ missingDataB ctx = true) ∧
    (missingDataB ctx = true → evaluateScalpDetails S ctx = noTradeBase .missing_data) := by
  unfold evaluateScalpDetails missingDataB
  rcases hc : ctx.indicators with _ | ind
  · rcases ctx.marketOdds with _ | odds <;> simp [noTradeBase]
  rcases ho : ctx.marketOdds with _ | odds
  · simp [noTradeBase]
  dsimp only
  rcases hm : ind.macd with _ | mac
  · simp [hm, noTradeBase]
  dsimp only
  by_cases hg : ind.ema21 = none ∨ ind.ema21 = some 0
  · rw [if_pos hg]
    rcases hg with hg | hg <;> simp [noTradeBase, hg]
  · rw [if_neg hg]
    have hne := evalBody_reason_ne S ctx.timeLeftMin ctx.spotPrice ctx.strikePrice ind mac odds
    push_neg at hg
    simp [hne, hg.1, hg.2]

/-- C8 (counterexample): a snapshot with only 2 candles and `up` odds null
(both violating the claimed precondition) passes the real data gate and the
evaluator returns ENTER — null odds coerce to 0, which is below every odds
cap. -/
theorem missing_data_cex :
    (momIndicators 6).candles.length < 30 ∧
    (momCtx 2 6 none).marketOdds = some { up := none, down := some (4/10) } ∧
    missingDataB (momCtx 2 6 none) = false ∧
    (evaluateScalpDetails stratCfg (momCtx 2 6 none)).action = .ENTER := by
  refine ⟨by simp [momIndicators], rfl, by simp [missingDataB, momCtx, momIndicators], ?_⟩
  norm_num [evaluateScalpDetails, evalBody, checkTrendSniper, momCtx, momIndicators, jsNum]
  rw [if_neg (fun h => Option.noConfusion h)]

/-- C8 witness: the gate theorem applied to a snapshot with `indicators`
null. -/
theorem missing_data_gate_witness :
    missingDataB ⟨"RISING", 2, some 100100, some 100000,
        some { up := some (6/10), down := some (4/10) }, none⟩ = true ∧
    evaluateScalpDetails stratCfg ⟨"RISING", 2, some 100100, some 100000,
        some { up := some (6/10), down := some (4/10) }, none⟩
      = noTradeBase .missing_data :=
  ⟨rfl, (missing_data_gate stratCfg ⟨"RISING", 2, some 100100, some 100000,
      some { up := some (6/10), down := some (4/10) }, none⟩).2 rfl⟩

end PolyBot
